import Mathlib

/-!
# Countdown face (Sensor-Watch, `countdown_face.c` / `countdown_face.h`)

A shallow embedding of the multi-slot countdown timer watch face.

* C structs become Lean structures with `Nat` fields; every store into a
  bit-field or a `uint32_t` is truncated explicitly (`bits`, `u32`).
* The fixed array `slots[COUNTDOWN_SLOTS]` is a function on `Fin COUNTDOWN_SLOTS`.
  An access `slots[i]` with `i` outside the array has no defined behaviour in C;
  the embedding returns `none` for it.
* The file-scope flag `quick_ticks_running` is carried as a field of the state.
* Calls into the host (movement / watch library) are recorded, in program
  order, as a list of `host_call` values.
* Functions of the host whose bodies are not part of the face
  (`watch_rtc_get_date_time`, `watch_utility_*`, the time zone table, the pin
  level of the alarm button) are parameters, collected in `movement_host`.
-/

namespace Countdown

/-! ## Constants -/

/-- Number of timer slots (`#define COUNTDOWN_SLOTS 5`). -/
abbrev COUNTDOWN_SLOTS : Nat := 5

/-- Number of editable fields (`#define CD_SELECTIONS 3`). -/
abbrev CD_SELECTIONS : Nat := 3

/-- Largest `uint32_t`. -/
abbrev UINT32_MAX : Nat := 4294967295

/-! ## Machine integers -/

/-- Store into a `uint32_t`. -/
def u32 (x : Nat) : Nat := x % 4294967296

/-- Store of a non-negative value into an unsigned bit-field of width `w`. -/
def bits (w : Nat) (x : Nat) : Nat := x % 2 ^ w

/-- Store of an `int` into an unsigned bit-field of width `w`. -/
def bits_of_int (w : Nat) (x : Int) : Nat := (x % (2 : Int) ^ w).toNat

/-- Conversion of a `uint32_t` to the `int` parameter of `div`; `int` has 32 bits on the
target, and a value above `INT_MAX` wraps to its two's complement reading. -/
def int_of_u32 (x : Nat) : Int := if x < 2147483648 then (x : Int) else (x : Int) - 4294967296

/-- The result type of the C library function `div`. -/
structure div_t where
  quot : Int
  rem : Int
deriving DecidableEq, Repr

/-- The C library function `div`: quotient truncated towards zero, and the
matching remainder. -/
def div (numer denom : Int) : div_t :=
  { quot := Int.tdiv numer denom, rem := Int.tmod numer denom }

/-! ## Data model (`countdown_face.h`) -/

/-- The enum `countdown_mode_t`. -/
inductive countdown_mode_t where
  | cd_paused
  | cd_running
  | cd_setting
  | cd_reset
deriving DecidableEq, Repr

open countdown_mode_t

/-- The struct `countdown_slot_state_t`. Widths: `target_ts` 32 bits, `hours` and
`set_hours` 5 bits, the minutes and seconds fields 6 bits. -/
structure countdown_slot_state_t where
  target_ts : Nat
  hours : Nat
  minutes : Nat
  seconds : Nat
  set_hours : Nat
  set_minutes : Nat
  set_seconds : Nat
  mode : countdown_mode_t
deriving DecidableEq, Repr

/-- The struct `countdown_state_t`, together with the file-scope flag
`quick_ticks_running`. Widths: `now_ts` 32 bits, `selection` 2 bits,
`current_slot_idx` and `next_alarm_slot_idx` 6 bits, `watch_face_idx` 8 bits. -/
structure countdown_state_t where
  now_ts : Nat
  selection : Nat
  current_slot_idx : Nat
  next_alarm_slot_idx : Nat
  watch_face_idx : Nat
  slots : Fin COUNTDOWN_SLOTS → countdown_slot_state_t
  quick_ticks_running : Bool

/-- Every field of a slot fits its declared width. -/
def slot_well_formed (sl : countdown_slot_state_t) : Prop :=
  sl.target_ts ≤ UINT32_MAX ∧ sl.hours < 32 ∧ sl.minutes < 64 ∧ sl.seconds < 64 ∧
    sl.set_hours < 32 ∧ sl.set_minutes < 64 ∧ sl.set_seconds < 64

/-- Every field of the state fits its declared width. -/
def well_formed (state : countdown_state_t) : Prop :=
  state.now_ts ≤ UINT32_MAX ∧ state.selection < 4 ∧ state.current_slot_idx < 64 ∧
    state.next_alarm_slot_idx < 64 ∧ state.watch_face_idx < 256 ∧
    ∀ ii, slot_well_formed (state.slots ii)

/-! ## The host -/

/-- The enum `movement_event_type_t` of the host (`movement.h`). -/
inductive movement_event_type_t where
  | EVENT_NONE
  | EVENT_ACTIVATE
  | EVENT_TICK
  | EVENT_LOW_ENERGY_UPDATE
  | EVENT_BACKGROUND_TASK
  | EVENT_TIMEOUT
  | EVENT_LIGHT_BUTTON_DOWN
  | EVENT_LIGHT_BUTTON_UP
  | EVENT_LIGHT_LONG_PRESS
  | EVENT_LIGHT_LONG_UP
  | EVENT_MODE_BUTTON_DOWN
  | EVENT_MODE_BUTTON_UP
  | EVENT_MODE_LONG_PRESS
  | EVENT_MODE_LONG_UP
  | EVENT_ALARM_BUTTON_DOWN
  | EVENT_ALARM_BUTTON_UP
  | EVENT_ALARM_LONG_PRESS
  | EVENT_ALARM_LONG_UP
deriving DecidableEq, Repr

open movement_event_type_t

/-- The struct `movement_event_t`. -/
structure movement_event_t where
  event_type : movement_event_type_t
  subsecond : Nat
deriving DecidableEq, Repr

/-- The two bits of `movement_settings_t` the face reads. -/
structure movement_settings_t where
  button_should_sound : Bool
  time_zone : Nat
deriving DecidableEq, Repr

/-- What the face reads from the host during one call. A `watch_date_time` is
carried as its 32-bit register value. -/
structure movement_host where
  /-- The value returned by `watch_rtc_get_date_time()`. -/
  watch_rtc_get_date_time : Nat
  /-- The function `watch_utility_date_time_to_unix_time(date_time, utc_offset)`. -/
  watch_utility_date_time_to_unix_time : Nat → Int → Nat
  /-- The function `watch_utility_date_time_from_unix_time(timestamp, utc_offset)`. -/
  watch_utility_date_time_from_unix_time : Nat → Int → Nat
  /-- The function `watch_utility_offset_timestamp(now, hours, minutes, seconds)`. -/
  watch_utility_offset_timestamp : Nat → Nat → Nat → Nat → Nat
  /-- The table `movement_timezone_offsets` (minutes east of UTC). -/
  movement_timezone_offsets : Nat → Int
  /-- The value returned by `watch_get_pin_level(BTN_ALARM)`. -/
  alarm_pin_level : Bool

/-- A call made into the host, with its arguments. -/
inductive host_call where
  | movement_request_tick_frequency (freq : Nat)
  /-- The call `watch_buzzer_play_note(BUZZER_NOTE_C7, 50)`. -/
  | watch_buzzer_play_note
  | movement_cancel_background_task_for_face (face : Nat)
  | movement_schedule_background_task_for_face (face : Nat) (date_time : Nat)
  /-- The call `watch_set_indicator(WATCH_INDICATOR_BELL)`. -/
  | watch_set_indicator_bell
  /-- The call `watch_clear_indicator(WATCH_INDICATOR_BELL)`. -/
  | watch_clear_indicator_bell
  | watch_display_string (buf : List Char) (position : Nat)
  | watch_set_colon
  | movement_play_alarm
  | movement_move_to_next_face
  | movement_move_to_face (face : Nat)
  | movement_default_loop_handler (event : movement_event_t)
deriving DecidableEq, Repr

open host_call

/-- Result of a function of the face: the state it leaves and the host calls it
made, or `none` when it accesses `slots` outside the array. -/
abbrev outcome := Option (countdown_state_t × List host_call)

/-- Sequencing of two steps, host calls concatenated in program order. -/
def and_then (r : outcome) (f : countdown_state_t → outcome) : outcome :=
  match r with
  | none => none
  | some (state, calls) =>
    match f state with
    | none => none
    | some (state', calls') => some (state', calls ++ calls')

/-! ## Access to `slots` -/

/-- Read of `slots[i]`. -/
def slot_read (slots : Fin COUNTDOWN_SLOTS → countdown_slot_state_t) (i : Nat) :
    Option countdown_slot_state_t :=
  if h : i < COUNTDOWN_SLOTS then some (slots ⟨i, h⟩) else none

/-- Write of `slots[i]`. -/
def slot_write (slots : Fin COUNTDOWN_SLOTS → countdown_slot_state_t) (i : Nat)
    (sl : countdown_slot_state_t) : Option (Fin COUNTDOWN_SLOTS → countdown_slot_state_t) :=
  if h : i < COUNTDOWN_SLOTS then some (Function.update slots ⟨i, h⟩ sl) else none

/-- In-place update of `slots[state->current_slot_idx]` through a pointer to it. -/
def update_current_slot (state : countdown_state_t)
    (f : countdown_slot_state_t → countdown_slot_state_t) : Option countdown_state_t :=
  match slot_read state.slots state.current_slot_idx with
  | none => none
  | some sl =>
    match slot_write state.slots state.current_slot_idx (f sl) with
    | none => none
    | some slots' => some { state with slots := slots' }

/-! ## Static functions of `countdown_face.c` -/

/-- The function `abort_quick_ticks`. -/
def abort_quick_ticks (state : countdown_state_t) : outcome :=
  if state.quick_ticks_running then
    match slot_read state.slots state.current_slot_idx with
    | none => none
    | some sl =>
      if sl.mode = cd_setting then
        some ({ state with quick_ticks_running := false }, [movement_request_tick_frequency 4])
      else
        some ({ state with quick_ticks_running := false }, [movement_request_tick_frequency 1])
  else some (state, [])

/-- The function `get_tz_offset`. -/
def get_tz_offset (host : movement_host) (settings : movement_settings_t) : Int :=
  host.movement_timezone_offsets settings.time_zone * 60

/-- The function `store_countdown`. -/
def store_countdown (state : countdown_state_t) : Option countdown_state_t :=
  update_current_slot state fun sl =>
    { sl with set_hours := sl.hours, set_minutes := sl.minutes, set_seconds := sl.seconds }

/-- The function `load_countdown`. -/
def load_countdown (state : countdown_state_t) : Option countdown_state_t :=
  update_current_slot state fun sl =>
    { sl with hours := sl.set_hours, minutes := sl.set_minutes, seconds := sl.set_seconds }

/-- The function `button_beep`. -/
def button_beep (settings : movement_settings_t) : List host_call :=
  if settings.button_should_sound then [watch_buzzer_play_note] else []

/-- One iteration of the loop of `update_next_alarm`: the pair is the local
`next_alarm` and the state. -/
def update_next_alarm_step (acc : Nat × countdown_state_t) (ii : Fin COUNTDOWN_SLOTS) :
    Nat × countdown_state_t :=
  if (acc.2.slots ii).mode = cd_running then
    if (acc.2.slots ii).target_ts < acc.1 then
      ((acc.2.slots ii).target_ts, { acc.2 with next_alarm_slot_idx := ii.val })
    else acc
  else acc

/-- The loop of `update_next_alarm`, `ii` from `0` to `COUNTDOWN_SLOTS - 1`. -/
def update_next_alarm_scan (state : countdown_state_t) : Nat × countdown_state_t :=
  (List.finRange COUNTDOWN_SLOTS).foldl update_next_alarm_step (UINT32_MAX, state)

/-- The function `update_next_alarm`. It never leaves the array. -/
def update_next_alarm (host : movement_host) (settings : movement_settings_t)
    (state : countdown_state_t) : countdown_state_t × List host_call :=
  let r := update_next_alarm_scan state
  if r.1 = UINT32_MAX then
    (r.2, [movement_cancel_background_task_for_face r.2.watch_face_idx])
  else
    (r.2, [movement_schedule_background_task_for_face r.2.watch_face_idx
      (host.watch_utility_date_time_from_unix_time r.1 (get_tz_offset host settings))])

/-- The function `start`. -/
def start (host : movement_host) (settings : movement_settings_t)
    (state : countdown_state_t) : outcome :=
  let now := host.watch_rtc_get_date_time
  let now_ts := u32 (host.watch_utility_date_time_to_unix_time now (get_tz_offset host settings))
  match update_current_slot { state with now_ts := now_ts } (fun sl =>
      { sl with
        mode := cd_running
        target_ts := u32 (host.watch_utility_offset_timestamp now_ts sl.hours sl.minutes
          sl.seconds) }) with
  | none => none
  | some state' => some (update_next_alarm host settings state')

/-- Digits of `%2d` (pad with a blank) and `%02d` (pad with a zero) for a
non-negative argument. -/
def format_2d (pad : Char) (n : Nat) : List Char :=
  if n < 10 then [pad, Nat.digitChar n] else Nat.toDigits 10 n

/-- The text written by `sprintf(buf, "CD%2d%2d%02d%02d", ...)`. -/
def sprintf_cd (slot_number hours minutes seconds : Nat) : List Char :=
  ['C', 'D'] ++ format_2d ' ' slot_number ++ format_2d ' ' hours ++ format_2d '0' minutes ++
    format_2d '0' seconds

/-- The statement `buf[i] = buf[i + 1] = ' '`. -/
def blank_pair (buf : List Char) (i : Nat) : List Char :=
  (buf.set (i + 1) ' ').set i ' '

/-- The function `draw`. -/
def draw (state : countdown_state_t) (subsecond : Nat) : outcome :=
  match slot_read state.slots state.current_slot_idx with
  | none => none
  | some sl =>
    match sl.mode with
    | cd_running =>
      let delta := u32 (sl.target_ts + 4294967296 - state.now_ts)
      let result := div (int_of_u32 delta) 60
      let seconds := bits_of_int 6 result.rem
      let result := div result.quot 60
      let hours := bits_of_int 5 result.quot
      let minutes := bits_of_int 6 result.rem
      match slot_write state.slots state.current_slot_idx
          { sl with seconds := seconds, hours := hours, minutes := minutes } with
      | none => none
      | some slots' =>
        some ({ state with slots := slots' },
          [watch_set_indicator_bell,
           watch_display_string (sprintf_cd (state.current_slot_idx + 1) hours minutes seconds) 0])
    | cd_reset | cd_paused =>
      some (state,
        [watch_clear_indicator_bell,
         watch_display_string
           (sprintf_cd (state.current_slot_idx + 1) sl.hours sl.minutes sl.seconds) 0])
    | cd_setting =>
      let buf := sprintf_cd (state.current_slot_idx + 1) sl.hours sl.minutes sl.seconds
      let buf :=
        if !state.quick_ticks_running && subsecond % 2 ≠ 0 then
          match state.selection with
          | 0 => blank_pair buf 4
          | 1 => blank_pair buf 6
          | 2 => blank_pair buf 8
          | _ => buf
        else buf
      some (state, [watch_clear_indicator_bell, watch_display_string buf 0])

/-- The function `pause`. -/
def pause (host : movement_host) (settings : movement_settings_t)
    (state : countdown_state_t) : outcome :=
  match update_current_slot state (fun sl => { sl with mode := cd_paused }) with
  | none => none
  | some state' =>
    let r := update_next_alarm host settings state'
    some (r.1, r.2 ++ [watch_clear_indicator_bell])

/-- The function `reset`. -/
def reset (host : movement_host) (settings : movement_settings_t)
    (state : countdown_state_t) : outcome :=
  match update_current_slot state (fun sl => { sl with mode := cd_reset }) with
  | none => none
  | some state' =>
    let r := update_next_alarm host settings state'
    match load_countdown r.1 with
    | none => none
    | some state'' => some (state'', r.2 ++ [watch_clear_indicator_bell])

/-- The function `ring`. -/
def ring (host : movement_host) (settings : movement_settings_t)
    (state : countdown_state_t) : outcome :=
  match reset host settings { state with current_slot_idx := state.next_alarm_slot_idx } with
  | none => none
  | some (state', calls) => some (state', calls ++ [movement_play_alarm])

/-- The function `settings_increment`. -/
def settings_increment (state : countdown_state_t) : Option countdown_state_t :=
  match state.selection with
  | 0 => update_current_slot state fun sl => { sl with hours := bits 5 ((sl.hours + 1) % 24) }
  | 1 => update_current_slot state fun sl => { sl with minutes := bits 6 ((sl.minutes + 1) % 60) }
  | 2 => update_current_slot state fun sl => { sl with seconds := bits 6 ((sl.seconds + 1) % 60) }
  | _ => some state

/-! ## Entry points of the face -/

/-- The state built by `countdown_face_setup` when `*context_ptr` is `NULL`,
before its call of `store_countdown`. -/
def setup_state (watch_face_index : Nat) : countdown_state_t :=
  { now_ts := 0
    selection := 0
    current_slot_idx := 0
    next_alarm_slot_idx := COUNTDOWN_SLOTS
    watch_face_idx := watch_face_index
    slots := fun _ =>
      { target_ts := 0, hours := 0, minutes := 0, seconds := 0,
        set_hours := 0, set_minutes := 0, set_seconds := 0, mode := cd_reset }
    quick_ticks_running := false }

/-- The function `countdown_face_setup`; `context` is `none` for a `NULL` pointer. -/
def countdown_face_setup (watch_face_index : Nat) (context : Option countdown_state_t) :
    Option countdown_state_t :=
  match context with
  | none => store_countdown (setup_state watch_face_index)
  | some state => some state

/-- Whether some slot is running: the test of the loops with `break` in
`countdown_face_activate` and in the tick handler. -/
def any_slot_running (state : countdown_state_t) : Bool :=
  (List.finRange COUNTDOWN_SLOTS).any fun ii => decide ((state.slots ii).mode = cd_running)

/-- The function `countdown_face_activate`. -/
def countdown_face_activate (host : movement_host) (settings : movement_settings_t)
    (state : countdown_state_t) : countdown_state_t × List host_call :=
  let state :=
    if any_slot_running state then
      { state with
        now_ts := u32 (host.watch_utility_date_time_to_unix_time host.watch_rtc_get_date_time
          (get_tz_offset host settings)) }
    else state
  ({ state with quick_ticks_running := false },
    [watch_set_colon, movement_request_tick_frequency 1])

/-- The function `countdown_face_loop`. The C function returns `true` on every
path; the embedding returns the state and the host calls. -/
def countdown_face_loop (host : movement_host) (event : movement_event_t)
    (settings : movement_settings_t) (state : countdown_state_t) : outcome :=
  match event.event_type with
  | EVENT_ACTIVATE => draw state event.subsecond
  | EVENT_TICK =>
    let r : outcome :=
      if state.quick_ticks_running then
        if host.alarm_pin_level then
          match settings_increment state with
          | none => none
          | some state' => some (state', [])
        else abort_quick_ticks state
      else some (state, [])
    and_then r fun state =>
      if any_slot_running state then
        draw { state with now_ts := u32 (state.now_ts + 1) } event.subsecond
      else draw state event.subsecond
  | EVENT_MODE_BUTTON_UP =>
    and_then (abort_quick_ticks state) fun state => some (state, [movement_move_to_next_face])
  | EVENT_LIGHT_BUTTON_UP =>
    match slot_read state.slots state.current_slot_idx with
    | none => none
    | some sl =>
      if sl.mode = cd_setting then
        if bits 2 (state.selection + 1) ≥ CD_SELECTIONS then
          match update_current_slot { state with selection := 0 }
              (fun sl => { sl with mode := cd_reset }) with
          | none => none
          | some state' =>
            match store_countdown state' with
            | none => none
            | some state'' =>
              and_then (some (state'', movement_request_tick_frequency 1 :: button_beep settings))
                fun state => draw state event.subsecond
        else draw { state with selection := bits 2 (state.selection + 1) } event.subsecond
      else
        draw { state with current_slot_idx := bits 6 ((state.current_slot_idx + 1) % COUNTDOWN_SLOTS) }
          event.subsecond
  | EVENT_ALARM_BUTTON_UP =>
    match slot_read state.slots state.current_slot_idx with
    | none => none
    | some sl =>
      let r : outcome :=
        match sl.mode with
        | cd_running =>
          and_then (pause host settings state) fun state => some (state, button_beep settings)
        | cd_reset | cd_paused =>
          if ¬ (sl.hours = 0 ∧ sl.minutes = 0 ∧ sl.seconds = 0) then
            and_then (start host settings state) fun state => some (state, button_beep settings)
          else some (state, [])
        | cd_setting =>
          match settings_increment state with
          | none => none
          | some state' => some (state', [])
      and_then r fun state => draw state event.subsecond
  | EVENT_ALARM_LONG_PRESS =>
    match slot_read state.slots state.current_slot_idx with
    | none => none
    | some sl =>
      if sl.mode = cd_setting then
        some ({ state with quick_ticks_running := true }, [movement_request_tick_frequency 8])
      else some (state, [])
  | EVENT_LIGHT_LONG_PRESS =>
    match slot_read state.slots state.current_slot_idx with
    | none => none
    | some sl =>
      match sl.mode with
      | cd_setting =>
        match state.selection with
        | 0 =>
          match update_current_slot state
              (fun sl => { sl with hours := 0, minutes := 0, seconds := 0 }) with
          | none => none
          | some state' => some (state', [])
        | 1 =>
          match update_current_slot state (fun sl => { sl with minutes := 0, seconds := 0 }) with
          | none => none
          | some state' => some (state', [])
        | 2 =>
          match update_current_slot state (fun sl => { sl with seconds := 0 }) with
          | none => none
          | some state' => some (state', [])
        | _ => some (state, [])
      | cd_paused =>
        and_then (reset host settings state) fun state => some (state, button_beep settings)
      | _ =>
        match update_current_slot state (fun sl => { sl with mode := cd_setting }) with
        | none => none
        | some state' => some (state', movement_request_tick_frequency 4 :: button_beep settings)
  | EVENT_ALARM_LONG_UP => abort_quick_ticks state
  | EVENT_BACKGROUND_TASK =>
    and_then (some (state, [movement_move_to_face state.watch_face_idx])) fun state =>
      ring host settings state
  | EVENT_TIMEOUT =>
    and_then (abort_quick_ticks state) fun state => some (state, [movement_move_to_face 0])
  | EVENT_LOW_ENERGY_UPDATE => some (state, [])
  | EVENT_LIGHT_BUTTON_DOWN => some (state, [])
  | _ => some (state, [movement_default_loop_handler event])

/-- The function `countdown_face_resign`. -/
def countdown_face_resign (state : countdown_state_t) : Option countdown_state_t :=
  match slot_read state.slots state.current_slot_idx with
  | none => none
  | some sl =>
    if sl.mode = cd_setting then
      match update_current_slot { state with selection := 0 }
          (fun sl => { sl with mode := cd_reset }) with
      | none => none
      | some state' => store_countdown state'
    else some state

/-! ## Auxiliary definitions for the statements -/

/-- Slot `k` is the one the scan of `update_next_alarm` picks among the indices
in `l`, starting from the bound `a`. -/
def picked (slots : Fin COUNTDOWN_SLOTS → countdown_slot_state_t)
    (l : List (Fin COUNTDOWN_SLOTS)) (a : Nat) (k : Fin COUNTDOWN_SLOTS) : Prop :=
  k ∈ l ∧ (slots k).mode = cd_running ∧ (slots k).target_ts < a ∧
    (∀ j ∈ l, (slots j).mode = cd_running → (slots k).target_ts ≤ (slots j).target_ts) ∧
    (∀ j ∈ l, j < k → (slots j).mode = cd_running → (slots k).target_ts < (slots j).target_ts)

/-- A host whose clock reads `now`, with identity conversions between date-times
and timestamps, UTC as the only time zone, and `watch_utility_offset_timestamp`
adding `3600 * hours + 60 * minutes + seconds`. -/
def demo_host (now : Nat) (pin : Bool) : movement_host :=
  { watch_rtc_get_date_time := now
    watch_utility_date_time_to_unix_time := fun date_time _ => date_time
    watch_utility_date_time_from_unix_time := fun timestamp _ => timestamp
    watch_utility_offset_timestamp := fun now hours minutes seconds =>
      now + 3600 * hours + 60 * minutes + seconds
    movement_timezone_offsets := fun _ => 0
    alarm_pin_level := pin }

/-- Settings with the button sound enabled. -/
def demo_settings : movement_settings_t := { button_should_sound := true, time_zone := 0 }

/-- A slot in the given mode whose pending and saved durations are given. -/
def demo_slot (mode : countdown_mode_t) (target_ts h m s sh sm ss : Nat) : countdown_slot_state_t :=
  { target_ts := target_ts, hours := h, minutes := m, seconds := s,
    set_hours := sh, set_minutes := sm, set_seconds := ss, mode := mode }

/-- The state after setup with slot 0 replaced by `sl`. -/
def demo_state (sl : countdown_slot_state_t) : countdown_state_t :=
  { setup_state 0 with slots := Function.update (setup_state 0).slots 0 sl }

/-- The viewed slot exists, is in mode `mode`, and its saved duration is `(sh, sm, ss)`. -/
def viewed_mode_saved (state : countdown_state_t) (mode : countdown_mode_t) (sh sm ss : Nat) :
    Prop :=
  ∃ sl, slot_read state.slots state.current_slot_idx = some sl ∧ sl.mode = mode ∧
    sl.set_hours = sh ∧ sl.set_minutes = sm ∧ sl.set_seconds = ss

/-- Handling a sequence of events in order; each event comes with the host as it is
read during that call. -/
def countdown_face_loop_seq (settings : movement_settings_t) :
    List (movement_host × movement_event_t) → countdown_state_t → outcome
  | [], state => some (state, [])
  | (host, event) :: rest, state =>
    and_then (countdown_face_loop host event settings state) (countdown_face_loop_seq settings rest)

/-- The state after setup with slot `i` running towards `t1` and slot `j` running
towards `t2`. -/
def demo_state_two (i j : Fin COUNTDOWN_SLOTS) (t1 t2 : Nat) : countdown_state_t :=
  { setup_state 0 with
    slots := Function.update
      (Function.update (setup_state 0).slots i (demo_slot cd_running t1 0 0 0 0 0 0)) j
      (demo_slot cd_running t2 0 0 0 0 0 0) }

/-- The events of the given types, in order, each with subsecond 0 and delivered
while the host reads as `host`. -/
def demo_events (host : movement_host) (types : List movement_event_type_t) :
    List (movement_host × movement_event_t) :=
  types.map fun t => (host, { event_type := t, subsecond := 0 })

/-- The requests to schedule or to cancel the background task among `calls`, in order. -/
def wake_requests (calls : List host_call) : List host_call :=
  calls.filter fun c =>
    match c with
    | movement_schedule_background_task_for_face _ _ => true
    | movement_cancel_background_task_for_face _ => true
    | _ => false

/-- The six events that put one second on the viewed slot and start it: enter Setting,
move to the seconds field, increment it, commit, start. -/
def demo_set_one_second_and_start : List movement_event_type_t :=
  [EVENT_LIGHT_LONG_PRESS, EVENT_LIGHT_BUTTON_UP, EVENT_LIGHT_BUTTON_UP, EVENT_ALARM_BUTTON_UP,
    EVENT_LIGHT_BUTTON_UP, EVENT_ALARM_BUTTON_UP]

/-- The pending fields `(hours, minutes, seconds)` that `draw` writes into a Running slot
whose target is `target_ts` when the cached clock is `now_ts`. -/
def remaining_fields (target_ts now_ts : Nat) : Nat × Nat × Nat :=
  (bits_of_int 5 (div (div (int_of_u32 (u32 (target_ts + 4294967296 - now_ts))) 60).quot 60).quot,
    bits_of_int 6 (div (div (int_of_u32 (u32 (target_ts + 4294967296 - now_ts))) 60).quot 60).rem,
    bits_of_int 6 (div (int_of_u32 (u32 (target_ts + 4294967296 - now_ts))) 60).rem)

/-- From `s` to `s'` nothing changed but, possibly, the cursor and pending fields of
slots: every slot kept its mode, target and saved duration, and `now_ts`, `selection`,
`next_alarm_slot_idx`, `watch_face_idx` and the quick-tick flag are the same. -/
def same_but_cursor_and_pending (s s' : countdown_state_t) : Prop :=
  s'.now_ts = s.now_ts ∧ s'.selection = s.selection ∧
    s'.next_alarm_slot_idx = s.next_alarm_slot_idx ∧ s'.watch_face_idx = s.watch_face_idx ∧
    s'.quick_ticks_running = s.quick_ticks_running ∧
    ∀ j, (s'.slots j).mode = (s.slots j).mode ∧ (s'.slots j).target_ts = (s.slots j).target_ts ∧
      (s'.slots j).set_hours = (s.slots j).set_hours ∧
      (s'.slots j).set_minutes = (s.slots j).set_minutes ∧
      (s'.slots j).set_seconds = (s.slots j).set_seconds

/-- States reached from the one built by `countdown_face_setup` through calls of
`countdown_face_loop` alone, with any events, hosts and settings. -/
inductive reachable_by_events : countdown_state_t → Prop where
  | setup {watch_face_index : Nat} {state : countdown_state_t} :
      countdown_face_setup watch_face_index none = some state → reachable_by_events state
  | loop {host : movement_host} {event : movement_event_t} {settings : movement_settings_t}
      {state state' : countdown_state_t} {calls : List host_call} :
      reachable_by_events state →
      countdown_face_loop host event settings state = some (state', calls) →
      reachable_by_events state'

/-- If the viewed slot is Running, its pending fields are the ones `draw` computes from
its target and `now_ts`. -/
def viewed_running_is_drawn (state : countdown_state_t) : Prop :=
  ∀ sl, slot_read state.slots state.current_slot_idx = some sl → sl.mode = cd_running →
    (sl.hours, sl.minutes, sl.seconds) = remaining_fields sl.target_ts state.now_ts

/-! # Lemmas -/

/-! ## Basic facts about slot access -/

theorem slot_read_some_iff {slots : Fin COUNTDOWN_SLOTS → countdown_slot_state_t} {i : Nat}
    {sl : countdown_slot_state_t} :
    slot_read slots i = some sl ↔ ∃ h : i < COUNTDOWN_SLOTS, slots ⟨i, h⟩ = sl := by
  unfold slot_read
  by_cases h : i < COUNTDOWN_SLOTS <;> simp [h]

theorem slot_read_of_lt (slots : Fin COUNTDOWN_SLOTS → countdown_slot_state_t) {i : Nat}
    (h : i < COUNTDOWN_SLOTS) : slot_read slots i = some (slots ⟨i, h⟩) := by
  simp [slot_read, h]

theorem slot_read_fin (slots : Fin COUNTDOWN_SLOTS → countdown_slot_state_t)
    (k : Fin COUNTDOWN_SLOTS) : slot_read slots k.val = some (slots k) := by
  simp [slot_read, k.isLt]

theorem slot_write_of_lt (slots : Fin COUNTDOWN_SLOTS → countdown_slot_state_t) {i : Nat}
    (h : i < COUNTDOWN_SLOTS) (sl : countdown_slot_state_t) :
    slot_write slots i sl = some (Function.update slots ⟨i, h⟩ sl) := by
  simp [slot_write, h]

theorem update_current_slot_of_read {state : countdown_state_t} {sl : countdown_slot_state_t}
    (hv : slot_read state.slots state.current_slot_idx = some sl)
    (f : countdown_slot_state_t → countdown_slot_state_t) :
    update_current_slot state f =
      some { state with
        slots := Function.update state.slots ⟨state.current_slot_idx,
          (slot_read_some_iff.mp hv).1⟩ (f sl) } := by
  obtain ⟨h, hs⟩ := slot_read_some_iff.mp hv
  simp [update_current_slot, slot_read, slot_write, h, hs]

/-! ## Frame of `update_next_alarm` -/

theorem update_next_alarm_step_frame (acc : Nat × countdown_state_t) (ii : Fin COUNTDOWN_SLOTS) :
    (update_next_alarm_step acc ii).2 =
      { acc.2 with next_alarm_slot_idx := (update_next_alarm_step acc ii).2.next_alarm_slot_idx } := by
  unfold update_next_alarm_step
  split_ifs <;> rfl

theorem update_next_alarm_fold_frame (l : List (Fin COUNTDOWN_SLOTS))
    (acc : Nat × countdown_state_t) :
    (l.foldl update_next_alarm_step acc).2 =
      { acc.2 with
        next_alarm_slot_idx := (l.foldl update_next_alarm_step acc).2.next_alarm_slot_idx } := by
  induction l generalizing acc with
  | nil => rfl
  | cons ii t ih =>
    rw [List.foldl_cons, ih, update_next_alarm_step_frame]

theorem update_next_alarm_fst (host : movement_host) (settings : movement_settings_t)
    (state : countdown_state_t) :
    (update_next_alarm host settings state).1 = (update_next_alarm_scan state).2 := by
  unfold update_next_alarm
  dsimp only
  split_ifs <;> rfl

theorem update_next_alarm_frame (host : movement_host) (settings : movement_settings_t)
    (state : countdown_state_t) :
    (update_next_alarm host settings state).1 =
      { state with
        next_alarm_slot_idx := (update_next_alarm host settings state).1.next_alarm_slot_idx } := by
  rw [update_next_alarm_fst]
  exact update_next_alarm_fold_frame (List.finRange COUNTDOWN_SLOTS) (UINT32_MAX, state)

@[simp] theorem update_next_alarm_slots (host : movement_host) (settings : movement_settings_t)
    (state : countdown_state_t) : (update_next_alarm host settings state).1.slots = state.slots := by
  rw [update_next_alarm_frame]

@[simp] theorem update_next_alarm_now_ts (host : movement_host) (settings : movement_settings_t)
    (state : countdown_state_t) : (update_next_alarm host settings state).1.now_ts = state.now_ts := by
  rw [update_next_alarm_frame]

@[simp] theorem update_next_alarm_selection (host : movement_host)
    (settings : movement_settings_t) (state : countdown_state_t) :
    (update_next_alarm host settings state).1.selection = state.selection := by
  rw [update_next_alarm_frame]

@[simp] theorem update_next_alarm_current_slot_idx (host : movement_host)
    (settings : movement_settings_t) (state : countdown_state_t) :
    (update_next_alarm host settings state).1.current_slot_idx = state.current_slot_idx := by
  rw [update_next_alarm_frame]

@[simp] theorem update_next_alarm_watch_face_idx (host : movement_host)
    (settings : movement_settings_t) (state : countdown_state_t) :
    (update_next_alarm host settings state).1.watch_face_idx = state.watch_face_idx := by
  rw [update_next_alarm_frame]

@[simp] theorem update_next_alarm_quick_ticks_running (host : movement_host)
    (settings : movement_settings_t) (state : countdown_state_t) :
    (update_next_alarm host settings state).1.quick_ticks_running = state.quick_ticks_running := by
  rw [update_next_alarm_frame]

/-! ## The scan of `update_next_alarm` -/

theorem update_next_alarm_fold_spec (slots : Fin COUNTDOWN_SLOTS → countdown_slot_state_t)
    (l : List (Fin COUNTDOWN_SLOTS)) (hl : l.Pairwise (· < ·)) :
    ∀ (a : Nat) (st : countdown_state_t), st.slots = slots →
      ((∀ j ∈ l, (slots j).mode = cd_running → a ≤ (slots j).target_ts) ∧
          l.foldl update_next_alarm_step (a, st) = (a, st)) ∨
        ∃ k, picked slots l a k ∧
          l.foldl update_next_alarm_step (a, st) =
            ((slots k).target_ts, { st with next_alarm_slot_idx := k.val }) := by
  induction l with
  | nil => intro a st _; left; simp
  | cons i t ih =>
    intro a st hst
    rw [List.pairwise_cons] at hl
    obtain ⟨hit, ht⟩ := hl
    rw [List.foldl_cons]
    by_cases hc : (slots i).mode = cd_running ∧ (slots i).target_ts < a
    · have hstep : update_next_alarm_step (a, st) i =
          ((slots i).target_ts, { st with next_alarm_slot_idx := i.val }) := by
        simp [update_next_alarm_step, hst, hc.1, hc.2]
      rw [hstep]
      right
      rcases ih ht (slots i).target_ts { st with next_alarm_slot_idx := i.val } hst with
        ⟨hno, heq⟩ | ⟨k, ⟨hk, hrun, hlt, hmin, hbefore⟩, heq⟩
      · refine ⟨i, ⟨List.mem_cons_self _ _, hc.1, hc.2, ?_, ?_⟩, heq⟩
        · intro j hj hjr
          rcases List.mem_cons.mp hj with rfl | hj
          · exact le_rfl
          · exact hno j hj hjr
        · intro j hj hji _
          rcases List.mem_cons.mp hj with rfl | hj
          · exact absurd hji (lt_irrefl _)
          · exact absurd (hit j hj) (not_lt_of_gt hji)
      · refine ⟨k, ⟨List.mem_cons_of_mem _ hk, hrun, lt_trans hlt hc.2, ?_, ?_⟩, ?_⟩
        · intro j hj hjr
          rcases List.mem_cons.mp hj with rfl | hj
          · exact le_of_lt hlt
          · exact hmin j hj hjr
        · intro j hj hjk hjr
          rcases List.mem_cons.mp hj with rfl | hj
          · exact hlt
          · exact hbefore j hj hjk hjr
        · rw [heq]
    · have hstep : update_next_alarm_step (a, st) i = (a, st) := by
        unfold update_next_alarm_step
        by_cases hr : (slots i).mode = cd_running
        · have : ¬ (slots i).target_ts < a := fun h => hc ⟨hr, h⟩
          simp [hst, hr, this]
        · simp [hst, hr]
      rw [hstep]
      have hi : (slots i).mode = cd_running → a ≤ (slots i).target_ts := fun hr =>
        not_lt.mp fun h => hc ⟨hr, h⟩
      rcases ih ht a st hst with ⟨hno, heq⟩ | ⟨k, ⟨hk, hrun, hlt, hmin, hbefore⟩, heq⟩
      · left
        refine ⟨?_, heq⟩
        intro j hj hjr
        rcases List.mem_cons.mp hj with rfl | hj
        · exact hi hjr
        · exact hno j hj hjr
      · right
        refine ⟨k, ⟨List.mem_cons_of_mem _ hk, hrun, hlt, ?_, ?_⟩, heq⟩
        · intro j hj hjr
          rcases List.mem_cons.mp hj with rfl | hj
          · exact le_of_lt (lt_of_lt_of_le hlt (hi hjr))
          · exact hmin j hj hjr
        · intro j hj hjk hjr
          rcases List.mem_cons.mp hj with rfl | hj
          · exact lt_of_lt_of_le hlt (hi hjr)
          · exact hbefore j hj hjk hjr

theorem update_next_alarm_cases (host : movement_host) (settings : movement_settings_t)
    (state : countdown_state_t) :
    ((∀ j, (state.slots j).mode = cd_running → UINT32_MAX ≤ (state.slots j).target_ts) ∧
        update_next_alarm host settings state =
          (state, [movement_cancel_background_task_for_face state.watch_face_idx])) ∨
      ∃ k, picked state.slots (List.finRange COUNTDOWN_SLOTS) UINT32_MAX k ∧
        update_next_alarm host settings state =
          ({ state with next_alarm_slot_idx := k.val },
            [movement_schedule_background_task_for_face state.watch_face_idx
              (host.watch_utility_date_time_from_unix_time (state.slots k).target_ts
                (get_tz_offset host settings))]) := by
  rcases update_next_alarm_fold_spec state.slots (List.finRange COUNTDOWN_SLOTS)
      (List.pairwise_lt_finRange _) UINT32_MAX state rfl with ⟨hno, heq⟩ | ⟨k, hk, heq⟩
  · left
    refine ⟨fun j hj => hno j (List.mem_finRange j) hj, ?_⟩
    simp [update_next_alarm, update_next_alarm_scan, heq]
  · right
    refine ⟨k, hk, ?_⟩
    have hne : (state.slots k).target_ts ≠ UINT32_MAX := Nat.ne_of_lt hk.2.2.1
    simp [update_next_alarm, update_next_alarm_scan, heq, hne]

/-! ## Arithmetic of `draw` -/

theorem div_natCast (n d : Nat) : div (n : Int) (d : Int) = { quot := ((n / d : Nat) : Int), rem := ((n % d : Nat) : Int) } := by
  have hq : Int.tdiv (n : Int) (d : Int) = ((n / d : Nat) : Int) := (Int.ofNat_tdiv n d).symm
  have hr : Int.tmod (n : Int) (d : Int) = ((n % d : Nat) : Int) := (Int.ofNat_tmod n d).symm
  simp only [div, hq, hr]

theorem bits_of_int_natCast (w x : Nat) : bits_of_int w (x : Int) = x % 2 ^ w := by
  unfold bits_of_int
  have : ((x : Int) % (2 : Int) ^ w) = ((x % 2 ^ w : Nat) : Int) := by push_cast; rfl
  rw [this, Int.toNat_ofNat]

theorem int_of_u32_small {x : Nat} (h : x < 2147483648) : int_of_u32 x = (x : Int) := by
  simp [int_of_u32, h]

theorem draw_of_running {state : countdown_state_t} {sl : countdown_slot_state_t}
    (hv : slot_read state.slots state.current_slot_idx = some sl) (hm : sl.mode = cd_running)
    (subsecond : Nat) :
    ∃ calls, draw state subsecond =
      some ({ state with
        slots := Function.update state.slots
          ⟨state.current_slot_idx, (slot_read_some_iff.mp hv).1⟩
          { sl with
            seconds := bits_of_int 6 (div (int_of_u32 (u32 (sl.target_ts + 4294967296 - state.now_ts))) 60).rem
            hours := bits_of_int 5 (div (div (int_of_u32 (u32 (sl.target_ts + 4294967296 - state.now_ts))) 60).quot 60).quot
            minutes := bits_of_int 6 (div (div (int_of_u32 (u32 (sl.target_ts + 4294967296 - state.now_ts))) 60).quot 60).rem } }, calls) := by
  obtain ⟨h, hs⟩ := slot_read_some_iff.mp hv
  simp [draw, hv, hm, slot_write, h]

theorem draw_of_not_running {state : countdown_state_t} {sl : countdown_slot_state_t}
    (hv : slot_read state.slots state.current_slot_idx = some sl) (hm : sl.mode ≠ cd_running)
    (subsecond : Nat) :
    ∃ buf, draw state subsecond =
      some (state, [watch_clear_indicator_bell, watch_display_string buf 0]) := by
  unfold draw
  rw [hv]
  cases hmode : sl.mode <;> simp_all

theorem draw_decompose {delta h m s : Nat} (hh : h < 24) (hm : m < 60) (hs : s < 60)
    (hd : delta = 3600 * h + 60 * m + s) :
    bits_of_int 6 (div (int_of_u32 delta) 60).rem = s ∧
      bits_of_int 5 (div (div (int_of_u32 delta) 60).quot 60).quot = h ∧
      bits_of_int 6 (div (div (int_of_u32 delta) 60).quot 60).rem = m := by
  have hlt : delta < 2147483648 := by omega
  rw [int_of_u32_small hlt]
  have h60 : ((60 : Nat) : Int) = 60 := rfl
  rw [← h60, div_natCast]
  simp only [div_natCast, bits_of_int_natCast]
  refine ⟨?_, ?_, ?_⟩ <;> norm_num <;> omega

theorem update_next_alarm_shape (host : movement_host) (settings : movement_settings_t)
    (state : countdown_state_t) :
    ∃ n calls, update_next_alarm host settings state =
      ({ state with next_alarm_slot_idx := n }, calls) :=
  ⟨(update_next_alarm host settings state).1.next_alarm_slot_idx,
    (update_next_alarm host settings state).2,
    Prod.ext (update_next_alarm_frame host settings state) rfl⟩

theorem slot_read_update_same (slots : Fin COUNTDOWN_SLOTS → countdown_slot_state_t) {i : Nat}
    (h : i < COUNTDOWN_SLOTS) (sl : countdown_slot_state_t) :
    slot_read (Function.update slots ⟨i, h⟩ sl) i = some sl := by
  simp only [slot_read, h, dite_true, Function.update_same]

/-! ## The display -/

theorem draw_of_reset_or_paused {state : countdown_state_t} {sl : countdown_slot_state_t}
    (hv : slot_read state.slots state.current_slot_idx = some sl)
    (hm : sl.mode = cd_reset ∨ sl.mode = cd_paused) (subsecond : Nat) :
    draw state subsecond =
      some (state, [watch_clear_indicator_bell,
        watch_display_string
          (sprintf_cd (state.current_slot_idx + 1) sl.hours sl.minutes sl.seconds) 0]) := by
  unfold draw
  rw [hv]
  rcases hm with hm | hm <;> simp [hm]

/-! ## Steps of the handler -/

theorem settings_increment_of_read {state : countdown_state_t} {sl : countdown_slot_state_t}
    (hv : slot_read state.slots state.current_slot_idx = some sl) :
    ∃ sl', settings_increment state =
        some { state with
          slots := Function.update state.slots
            ⟨state.current_slot_idx, (slot_read_some_iff.mp hv).1⟩ sl' } ∧
      sl'.mode = sl.mode ∧ sl'.target_ts = sl.target_ts ∧ sl'.set_hours = sl.set_hours ∧
      sl'.set_minutes = sl.set_minutes ∧ sl'.set_seconds = sl.set_seconds := by
  obtain ⟨h, hs⟩ := slot_read_some_iff.mp hv
  unfold settings_increment
  split
  · exact ⟨_, update_current_slot_of_read hv _, rfl, rfl, rfl, rfl, rfl⟩
  · exact ⟨_, update_current_slot_of_read hv _, rfl, rfl, rfl, rfl, rfl⟩
  · exact ⟨_, update_current_slot_of_read hv _, rfl, rfl, rfl, rfl, rfl⟩
  · refine ⟨sl, ?_, rfl, rfl, rfl, rfl, rfl⟩
    have hu : Function.update state.slots ⟨state.current_slot_idx, h⟩ sl = state.slots := by
      subst hs
      exact Function.update_eq_self _ _
    rw [hu]

theorem viewed_mode_saved_update {state : countdown_state_t} {mode : countdown_mode_t}
    {sh sm ss : Nat} (h : state.current_slot_idx < COUNTDOWN_SLOTS) (sl : countdown_slot_state_t)
    (hm : sl.mode = mode) (h1 : sl.set_hours = sh) (h2 : sl.set_minutes = sm)
    (h3 : sl.set_seconds = ss) (now_ts selection next : Nat) (quick : Bool) :
    viewed_mode_saved
      { state with
        now_ts := now_ts, selection := selection, next_alarm_slot_idx := next
        quick_ticks_running := quick
        slots := Function.update state.slots ⟨state.current_slot_idx, h⟩ sl } mode sh sm ss :=
  ⟨sl, slot_read_update_same _ h _, hm, h1, h2, h3⟩

theorem draw_keeps_running {state : countdown_state_t} {sh sm ss : Nat}
    (hv : viewed_mode_saved state cd_running sh sm ss) (subsecond : Nat) :
    ∃ state' calls, draw state subsecond = some (state', calls) ∧
      state'.current_slot_idx = state.current_slot_idx ∧
      viewed_mode_saved state' cd_running sh sm ss := by
  obtain ⟨sl, hr, hm, h1, h2, h3⟩ := hv
  obtain ⟨calls, hd⟩ := draw_of_running hr hm subsecond
  exact ⟨_, _, hd, rfl, _, slot_read_update_same _ _ _, hm, h1, h2, h3⟩

theorem and_then_spec {r : outcome} {f : countdown_state_t → outcome}
    {P Q : countdown_state_t → Prop}
    (hr : ∃ state calls, r = some (state, calls) ∧ P state)
    (hf : ∀ state, P state → ∃ state' calls', f state = some (state', calls') ∧ Q state') :
    ∃ state' calls', and_then r f = some (state', calls') ∧ Q state' := by
  obtain ⟨st, c, rfl, hp⟩ := hr
  obtain ⟨st', c', hf', hq⟩ := hf st hp
  exact ⟨st', c ++ c', by simp only [and_then, hf'], hq⟩

theorem tick_keeps_running (host : movement_host) (settings : movement_settings_t)
    {state : countdown_state_t} {sh sm ss : Nat}
    (hv : viewed_mode_saved state cd_running sh sm ss) (subsecond : Nat) :
    ∃ state' calls,
      countdown_face_loop host { event_type := EVENT_TICK, subsecond := subsecond } settings
          state = some (state', calls) ∧
        state'.current_slot_idx = state.current_slot_idx ∧
        viewed_mode_saved state' cd_running sh sm ss := by
  simp only [countdown_face_loop]
  refine and_then_spec
    (P := fun st1 => st1.current_slot_idx = state.current_slot_idx ∧
      viewed_mode_saved st1 cd_running sh sm ss) ?_ ?_
  · -- the part of the handler before the loop over the slots
    obtain ⟨sl, hr, hm, h1, h2, h3⟩ := hv
    by_cases hq : state.quick_ticks_running = true
    · by_cases hp : host.alarm_pin_level = true
      · obtain ⟨sl', hinc, hm', _, h1', h2', h3'⟩ := settings_increment_of_read hr
        refine ⟨{ state with
            slots := Function.update state.slots
              ⟨state.current_slot_idx, (slot_read_some_iff.mp hr).1⟩ sl' }, [], ?_, rfl,
          sl', slot_read_update_same _ _ _, hm'.trans hm, h1'.trans h1, h2'.trans h2,
          h3'.trans h3⟩
        simp only [hq, hp, if_true, hinc]
      · refine ⟨{ state with quick_ticks_running := false },
          [movement_request_tick_frequency 1], ?_, rfl, sl, hr, hm, h1, h2, h3⟩
        simp [hq, hp, abort_quick_ticks, hr, hm]
    · exact ⟨state, [], by simp [hq], rfl, sl, hr, hm, h1, h2, h3⟩
  · rintro st1 ⟨hidx, hv1⟩
    have hv1' : viewed_mode_saved { st1 with now_ts := u32 (st1.now_ts + 1) } cd_running
        sh sm ss := hv1
    by_cases hany : any_slot_running st1 = true
    · obtain ⟨st2, c2, hd, hi2, hv2⟩ := draw_keeps_running hv1' subsecond
      exact ⟨st2, c2, by simp only [hany, if_true, hd], hi2.trans hidx, hv2⟩
    · obtain ⟨st2, c2, hd, hi2, hv2⟩ := draw_keeps_running hv1 subsecond
      exact ⟨st2, c2, by simp only [hany, hd]; rfl, hi2.trans hidx, hv2⟩

theorem pause_of_read (host : movement_host) (settings : movement_settings_t)
    {state : countdown_state_t} {sl : countdown_slot_state_t}
    (hv : slot_read state.slots state.current_slot_idx = some sl) :
    pause host settings state =
      some ({ state with
          next_alarm_slot_idx := (update_next_alarm host settings { state with
            slots := Function.update state.slots
              ⟨state.current_slot_idx, (slot_read_some_iff.mp hv).1⟩
              { sl with mode := cd_paused } }).1.next_alarm_slot_idx
          slots := Function.update state.slots
            ⟨state.current_slot_idx, (slot_read_some_iff.mp hv).1⟩
            { sl with mode := cd_paused } },
        (update_next_alarm host settings { state with
            slots := Function.update state.slots
              ⟨state.current_slot_idx, (slot_read_some_iff.mp hv).1⟩
              { sl with mode := cd_paused } }).2 ++ [watch_clear_indicator_bell]) := by
  unfold pause
  rw [update_current_slot_of_read hv]
  simp only
  rw [update_next_alarm_frame]

theorem reset_of_read (host : movement_host) (settings : movement_settings_t)
    {state : countdown_state_t} {sl : countdown_slot_state_t}
    (hv : slot_read state.slots state.current_slot_idx = some sl) :
    reset host settings state =
      some ({ state with
          next_alarm_slot_idx := (update_next_alarm host settings { state with
            slots := Function.update state.slots
              ⟨state.current_slot_idx, (slot_read_some_iff.mp hv).1⟩
              { sl with mode := cd_reset } }).1.next_alarm_slot_idx
          slots := Function.update state.slots
            ⟨state.current_slot_idx, (slot_read_some_iff.mp hv).1⟩
            { sl with
              mode := cd_reset, hours := sl.set_hours, minutes := sl.set_minutes
              seconds := sl.set_seconds } },
        (update_next_alarm host settings { state with
            slots := Function.update state.slots
              ⟨state.current_slot_idx, (slot_read_some_iff.mp hv).1⟩
              { sl with mode := cd_reset } }).2 ++ [watch_clear_indicator_bell]) := by
  obtain ⟨h, hs⟩ := slot_read_some_iff.mp hv
  unfold reset
  rw [update_current_slot_of_read hv]
  simp only
  rw [update_next_alarm_frame]
  simp only [load_countdown, update_current_slot, slot_read, slot_write, h, dite_true,
    Function.update_same, Function.update_idem]

theorem and_then_assoc (r : outcome) (f g : countdown_state_t → outcome) :
    and_then (and_then r f) g = and_then r fun state => and_then (f state) g := by
  rcases r with _ | ⟨st, c⟩
  · rfl
  · simp only [and_then]
    rcases f st with _ | ⟨st1, c1⟩
    · rfl
    · simp only
      rcases g st1 with _ | ⟨st2, c2⟩
      · rfl
      · simp only [List.append_assoc]

theorem and_then_pure (state : countdown_state_t) (f : countdown_state_t → outcome) :
    and_then (some (state, [])) f = f state := by
  simp only [and_then]
  rcases f state with _ | ⟨st1, c1⟩ <;> simp

theorem countdown_face_loop_seq_append (settings : movement_settings_t)
    (l1 l2 : List (movement_host × movement_event_t)) (state : countdown_state_t) :
    countdown_face_loop_seq settings (l1 ++ l2) state =
      and_then (countdown_face_loop_seq settings l1 state) (countdown_face_loop_seq settings l2) := by
  induction l1 generalizing state with
  | nil => simp only [List.nil_append, countdown_face_loop_seq, and_then_pure]
  | cons e t ih =>
    obtain ⟨host, event⟩ := e
    simp only [List.cons_append, countdown_face_loop_seq, and_then_assoc]
    congr 1
    funext st
    exact ih st

theorem ticks_keep_running (settings : movement_settings_t)
    (ticks : List (movement_host × movement_event_t))
    (hticks : ∀ e ∈ ticks, e.2.event_type = EVENT_TICK)
    {sh sm ss : Nat} (idx : Nat) :
    ∀ state : countdown_state_t, state.current_slot_idx = idx →
      viewed_mode_saved state cd_running sh sm ss →
      ∃ state' calls, countdown_face_loop_seq settings ticks state = some (state', calls) ∧
        (state'.current_slot_idx = idx ∧ viewed_mode_saved state' cd_running sh sm ss) := by
  induction ticks with
  | nil => intro state hi hv; exact ⟨state, [], rfl, hi, hv⟩
  | cons e t ih =>
    intro state hi hv
    obtain ⟨host, event⟩ := e
    have he : event.event_type = EVENT_TICK := hticks (host, event) (List.mem_cons_self _ _)
    have hev : event = { event_type := EVENT_TICK, subsecond := event.subsecond } := by
      cases event; simp_all
    simp only [countdown_face_loop_seq]
    refine and_then_spec
      (P := fun st => st.current_slot_idx = idx ∧ viewed_mode_saved st cd_running sh sm ss) ?_ ?_
    · rw [hev]
      obtain ⟨st', c, h1, h2, h3⟩ := tick_keeps_running host settings hv event.subsecond
      exact ⟨st', c, h1, h2.trans hi, h3⟩
    · rintro st ⟨h1, h2⟩
      exact ih (fun e he => hticks e (List.mem_cons_of_mem _ he)) st h1 h2

theorem confirm_pauses_running (host : movement_host) (settings : movement_settings_t)
    {state : countdown_state_t} {sh sm ss : Nat}
    (hv : viewed_mode_saved state cd_running sh sm ss) (subsecond : Nat) :
    ∃ state' calls,
      countdown_face_loop host { event_type := EVENT_ALARM_BUTTON_UP, subsecond := subsecond }
          settings state = some (state', calls) ∧
        (state'.current_slot_idx = state.current_slot_idx ∧
          viewed_mode_saved state' cd_paused sh sm ss) := by
  obtain ⟨sl, hr, hm, h1, h2, h3⟩ := hv
  simp only [countdown_face_loop, hr, hm]
  refine and_then_spec (P := fun st => st.current_slot_idx = state.current_slot_idx ∧
      viewed_mode_saved st cd_paused sh sm ss) ?_ ?_
  · refine and_then_spec (P := fun st => st.current_slot_idx = state.current_slot_idx ∧
      viewed_mode_saved st cd_paused sh sm ss) ⟨_, _, pause_of_read host settings hr, rfl,
        _, slot_read_update_same _ _ _, rfl, h1, h2, h3⟩ ?_
    intro st hst
    exact ⟨st, _, rfl, hst⟩
  · rintro st ⟨hi, sl', hr', hm', hs'⟩
    exact ⟨st, _, draw_of_reset_or_paused hr' (Or.inr hm') subsecond, hi, sl', hr', hm', hs'⟩

theorem restore_resets_paused (host : movement_host) (settings : movement_settings_t)
    {state : countdown_state_t} {sh sm ss : Nat}
    (hv : viewed_mode_saved state cd_paused sh sm ss) (subsecond : Nat) :
    ∃ state' calls,
      countdown_face_loop host { event_type := EVENT_LIGHT_LONG_PRESS, subsecond := subsecond }
          settings state = some (state', calls) ∧
        (state'.current_slot_idx = state.current_slot_idx ∧
          ∃ sl', slot_read state'.slots state'.current_slot_idx = some sl' ∧
            sl'.mode = cd_reset ∧ sl'.hours = sh ∧ sl'.minutes = sm ∧ sl'.seconds = ss ∧
            sl'.set_hours = sh ∧ sl'.set_minutes = sm ∧ sl'.set_seconds = ss) := by
  obtain ⟨sl, hr, hm, h1, h2, h3⟩ := hv
  simp only [countdown_face_loop, hr, hm]
  refine and_then_spec (P := fun st => st.current_slot_idx = state.current_slot_idx ∧
      ∃ sl', slot_read st.slots st.current_slot_idx = some sl' ∧
            sl'.mode = cd_reset ∧ sl'.hours = sh ∧ sl'.minutes = sm ∧ sl'.seconds = ss ∧
            sl'.set_hours = sh ∧ sl'.set_minutes = sm ∧ sl'.set_seconds = ss)
    ⟨_, _, reset_of_read host settings hr, rfl,
        _, slot_read_update_same _ _ _, rfl, h1, h2, h3, h1, h2, h3⟩ ?_
  intro st hst
  exact ⟨st, _, rfl, hst⟩

theorem picked_unique {slots slots2 : Fin COUNTDOWN_SLOTS → countdown_slot_state_t}
    {l : List (Fin COUNTDOWN_SLOTS)} {a : Nat} {k k2 : Fin COUNTDOWN_SLOTS}
    (hmode : ∀ j, (slots2 j).mode = cd_running ↔ (slots j).mode = cd_running)
    (htarget : ∀ j, (slots j).mode = cd_running → (slots2 j).target_ts = (slots j).target_ts)
    (hk : picked slots l a k) (hk2 : picked slots2 l a k2) : k2 = k := by
  obtain ⟨hmem, hrun, -, hmin, hbefore⟩ := hk
  obtain ⟨hmem2, hrun2, -, hmin2, hbefore2⟩ := hk2
  have hrun2' := (hmode k2).mp hrun2
  have hrunk := (hmode k).mpr hrun
  have e2 := htarget k2 hrun2'
  have e1 := htarget k hrun
  have le1 := hmin k2 hmem2 hrun2'
  have le2 := hmin2 k hmem hrunk
  rcases lt_trichotomy k2 k with hlt | heq | hgt
  · have := hbefore k2 hmem2 hlt hrun2'
    omega
  · exact heq
  · have := hbefore2 k hmem hgt hrunk
    omega

theorem ring_of_next (host : movement_host) (settings : movement_settings_t)
    (state : countdown_state_t) (k : Fin COUNTDOWN_SLOTS)
    (hk : state.next_alarm_slot_idx = k.val) :
    ring host settings state =
      some ({ state with
          current_slot_idx := k.val
          next_alarm_slot_idx := (update_next_alarm host settings { state with
            current_slot_idx := k.val
            slots := Function.update state.slots k
              { state.slots k with mode := cd_reset } }).1.next_alarm_slot_idx
          slots := Function.update state.slots k
            { state.slots k with
              mode := cd_reset, hours := (state.slots k).set_hours
              minutes := (state.slots k).set_minutes, seconds := (state.slots k).set_seconds } },
        (update_next_alarm host settings { state with
            current_slot_idx := k.val
            slots := Function.update state.slots k
              { state.slots k with mode := cd_reset } }).2 ++
          [watch_clear_indicator_bell] ++ [movement_play_alarm]) := by
  have hv : slot_read ({ state with current_slot_idx := state.next_alarm_slot_idx } :
      countdown_state_t).slots ({ state with current_slot_idx := state.next_alarm_slot_idx } :
      countdown_state_t).current_slot_idx = some (state.slots k) := by
    rw [hk]; exact slot_read_fin _ k
  unfold ring
  rw [reset_of_read host settings hv]
  simp only [hk]

theorem background_task_of_next (host : movement_host) (settings : movement_settings_t)
    (state : countdown_state_t) (k : Fin COUNTDOWN_SLOTS) (subsecond : Nat)
    (hk : state.next_alarm_slot_idx = k.val) :
    countdown_face_loop host { event_type := EVENT_BACKGROUND_TASK, subsecond := subsecond }
        settings state =
      some ({ state with
          current_slot_idx := k.val
          next_alarm_slot_idx := (update_next_alarm host settings { state with
            current_slot_idx := k.val
            slots := Function.update state.slots k
              { state.slots k with mode := cd_reset } }).1.next_alarm_slot_idx
          slots := Function.update state.slots k
            { state.slots k with
              mode := cd_reset, hours := (state.slots k).set_hours
              minutes := (state.slots k).set_minutes, seconds := (state.slots k).set_seconds } },
        movement_move_to_face state.watch_face_idx ::
          ((update_next_alarm host settings { state with
            current_slot_idx := k.val
            slots := Function.update state.slots k
              { state.slots k with mode := cd_reset } }).2 ++
          [watch_clear_indicator_bell, movement_play_alarm])) := by
  simp only [countdown_face_loop, and_then, ring_of_next host settings state k hk]
  simp

theorem draw_of_setting {state : countdown_state_t} {sl : countdown_slot_state_t}
    (hv : slot_read state.slots state.current_slot_idx = some sl) (hm : sl.mode = cd_setting)
    (subsecond : Nat) :
    ∃ buf, draw state subsecond =
      some (state, [watch_clear_indicator_bell, watch_display_string buf 0]) :=
  draw_of_not_running hv (by rw [hm]; decide) subsecond

theorem bits_5_mod_24 (x : Nat) : bits 5 (x % 24) = x % 24 := by
  unfold bits
  norm_num
  omega

theorem bits_6_mod_60 (x : Nat) : bits 6 (x % 60) = x % 60 := by
  unfold bits
  norm_num
  omega

theorem countdown_face_setup_none (watch_face_index : Nat) :
    countdown_face_setup watch_face_index none = some (setup_state watch_face_index) := by
  have h : slot_read (setup_state watch_face_index).slots
      (setup_state watch_face_index).current_slot_idx =
      some ((setup_state watch_face_index).slots 0) := slot_read_fin _ 0
  simp only [countdown_face_setup, store_countdown]
  rw [update_current_slot_of_read h]
  have hu : Function.update (setup_state watch_face_index).slots
      ⟨(setup_state watch_face_index).current_slot_idx, (slot_read_some_iff.mp h).1⟩
      ((setup_state watch_face_index).slots 0) = (setup_state watch_face_index).slots :=
    Function.update_eq_self _ _
  exact congrArg some (congrArg (fun s => { setup_state watch_face_index with slots := s }) hu)

/-! ## Frames of `draw` and of the tick handler -/

theorem remaining_fields_of_le {target_ts now_ts : Nat} (hle : now_ts ≤ target_ts)
    (hlt : target_ts - now_ts < 115200) :
    remaining_fields target_ts now_ts =
      ((target_ts - now_ts) / 3600, (target_ts - now_ts) / 60 % 60, (target_ts - now_ts) % 60) := by
  have hd : u32 (target_ts + 4294967296 - now_ts) = target_ts - now_ts := by
    unfold u32; omega
  have hsmall : target_ts - now_ts < 2147483648 := by omega
  have h60 : ((60 : Nat) : Int) = 60 := rfl
  unfold remaining_fields
  rw [hd, int_of_u32_small hsmall, ← h60, div_natCast]
  simp only [div_natCast, bits_of_int_natCast]
  generalize target_ts - now_ts = d at hlt
  refine Prod.ext ?_ (Prod.ext ?_ ?_) <;> norm_num <;> omega

/-- What `draw` does to the state, whatever the mode: only the viewed slot can change, and
only its pending fields, which a Running slot gets from `remaining_fields`. -/
theorem draw_frame {state : countdown_state_t} {sl : countdown_slot_state_t}
    (hv : slot_read state.slots state.current_slot_idx = some sl) (subsecond : Nat) :
    ∃ sl' calls,
      draw state subsecond =
        some ({ state with
          slots := Function.update state.slots
            ⟨state.current_slot_idx, (slot_read_some_iff.mp hv).1⟩ sl' }, calls) ∧
      sl'.mode = sl.mode ∧ sl'.target_ts = sl.target_ts ∧ sl'.set_hours = sl.set_hours ∧
      sl'.set_minutes = sl.set_minutes ∧ sl'.set_seconds = sl.set_seconds ∧
      (sl.mode ≠ cd_running → sl' = sl) ∧
      (sl.mode = cd_running →
        (sl'.hours, sl'.minutes, sl'.seconds) = remaining_fields sl.target_ts state.now_ts) := by
  obtain ⟨hlt, hsl⟩ := slot_read_some_iff.mp hv
  by_cases hm : sl.mode = cd_running
  · obtain ⟨calls, hd⟩ := draw_of_running hv hm subsecond
    exact ⟨_, calls, hd, rfl, rfl, rfl, rfl, rfl, fun h => absurd hm h, fun _ => rfl⟩
  · obtain ⟨buf, hd⟩ := draw_of_not_running hv hm subsecond
    have hu : Function.update state.slots ⟨state.current_slot_idx, hlt⟩ sl = state.slots := by
      subst hsl
      exact Function.update_eq_self _ _
    refine ⟨sl, [watch_clear_indicator_bell, watch_display_string buf 0], ?_, rfl, rfl, rfl,
      rfl, rfl, fun _ => rfl, fun h => absurd h hm⟩
    rw [hd, hu]

theorem any_slot_running_iff (state : countdown_state_t) :
    any_slot_running state = true ↔ ∃ j, (state.slots j).mode = cd_running := by
  simp [any_slot_running, List.any_eq_true, List.mem_finRange]

theorem any_slot_running_congr {s1 s2 : countdown_state_t}
    (h : ∀ j, (s2.slots j).mode = (s1.slots j).mode) :
    any_slot_running s2 = any_slot_running s1 := by
  rw [Bool.eq_iff_iff, any_slot_running_iff, any_slot_running_iff]
  constructor
  · rintro ⟨j, hj⟩; exact ⟨j, (h j).symm.trans hj⟩
  · rintro ⟨j, hj⟩; exact ⟨j, (h j).trans hj⟩

theorem update_mode_frame (slots : Fin COUNTDOWN_SLOTS → countdown_slot_state_t)
    (k : Fin COUNTDOWN_SLOTS) (sl' : countdown_slot_state_t) (hm : sl'.mode = (slots k).mode)
    (j : Fin COUNTDOWN_SLOTS) : (Function.update slots k sl' j).mode = (slots j).mode := by
  by_cases hj : j = k
  · subst hj; rw [Function.update_same]; exact hm
  · rw [Function.update_noteq hj]

/-! ## Presses of the light button -/

theorem same_but_cursor_and_pending_trans {a b c : countdown_state_t}
    (h1 : same_but_cursor_and_pending a b) (h2 : same_but_cursor_and_pending b c) :
    same_but_cursor_and_pending a c := by
  obtain ⟨a1, a2, a3, a4, a5, a6⟩ := h1
  obtain ⟨b1, b2, b3, b4, b5, b6⟩ := h2
  refine ⟨b1.trans a1, b2.trans a2, b3.trans a3, b4.trans a4, b5.trans a5, fun j => ?_⟩
  obtain ⟨x1, x2, x3, x4, x5⟩ := a6 j
  obtain ⟨y1, y2, y3, y4, y5⟩ := b6 j
  exact ⟨y1.trans x1, y2.trans x2, y3.trans x3, y4.trans x4, y5.trans x5⟩

theorem bits_6_mod_5 (x : Nat) : bits 6 (x % COUNTDOWN_SLOTS) = x % COUNTDOWN_SLOTS := by
  unfold bits
  norm_num
  omega

/-- One press of the light button on a viewed slot that is not in Setting mode. -/
theorem light_button_next_slot (host : movement_host) (settings : movement_settings_t)
    {state : countdown_state_t} {sl : countdown_slot_state_t} (subsecond : Nat)
    (hv : slot_read state.slots state.current_slot_idx = some sl)
    (hm : sl.mode ≠ cd_setting) :
    ∃ state' calls,
      countdown_face_loop host { event_type := EVENT_LIGHT_BUTTON_UP, subsecond := subsecond }
          settings state = some (state', calls) ∧
        (state'.current_slot_idx = (state.current_slot_idx + 1) % COUNTDOWN_SLOTS ∧
          same_but_cursor_and_pending state state' ∧
          (∀ j : Fin COUNTDOWN_SLOTS,
            j.val ≠ (state.current_slot_idx + 1) % COUNTDOWN_SLOTS ∨
                (state.slots j).mode ≠ cd_running →
              state'.slots j = state.slots j) ∧
          ∀ j : Fin COUNTDOWN_SLOTS,
            j.val = (state.current_slot_idx + 1) % COUNTDOWN_SLOTS →
            (state.slots j).mode = cd_running →
              ((state'.slots j).hours, (state'.slots j).minutes, (state'.slots j).seconds) =
                remaining_fields (state.slots j).target_ts state.now_ts) := by
  have hk : (state.current_slot_idx + 1) % COUNTDOWN_SLOTS < COUNTDOWN_SLOTS :=
    Nat.mod_lt _ (by decide)
  have hv' : slot_read
      ({ state with current_slot_idx := (state.current_slot_idx + 1) % COUNTDOWN_SLOTS } :
        countdown_state_t).slots
      ({ state with current_slot_idx := (state.current_slot_idx + 1) % COUNTDOWN_SLOTS } :
        countdown_state_t).current_slot_idx =
      some (state.slots ⟨(state.current_slot_idx + 1) % COUNTDOWN_SLOTS, hk⟩) :=
    slot_read_of_lt _ hk
  obtain ⟨sl', calls, hd, hmode, htarget, hs1, hs2, hs3, hsame, hrem⟩ := draw_frame hv' subsecond
  refine ⟨{ state with
      current_slot_idx := (state.current_slot_idx + 1) % COUNTDOWN_SLOTS
      slots := Function.update state.slots
        ⟨(state.current_slot_idx + 1) % COUNTDOWN_SLOTS, hk⟩ sl' }, calls, ?_, rfl,
    ⟨rfl, rfl, rfl, rfl, rfl, fun j => ?_⟩, fun j hj => ?_, fun j hj hr => ?_⟩
  · simp only [countdown_face_loop, hv, hm, if_false, bits_6_mod_5]
    exact hd
  · by_cases hj : j = ⟨(state.current_slot_idx + 1) % COUNTDOWN_SLOTS, hk⟩
    · subst hj
      dsimp only
      rw [Function.update_same]
      exact ⟨hmode, htarget, hs1, hs2, hs3⟩
    · dsimp only
      rw [Function.update_noteq hj]
      exact ⟨rfl, rfl, rfl, rfl, rfl⟩
  · by_cases hjk : j = ⟨(state.current_slot_idx + 1) % COUNTDOWN_SLOTS, hk⟩
    · subst hjk
      rcases hj with hj | hj
      · exact absurd rfl hj
      · dsimp only
        rw [Function.update_same]
        exact hsame hj
    · exact Function.update_noteq hjk _ _
  · have hjk : j = ⟨(state.current_slot_idx + 1) % COUNTDOWN_SLOTS, hk⟩ := Fin.ext hj
    subst hjk
    dsimp only
    rw [Function.update_same]
    exact hrem hr

/-- Presses of the light button while no slot is in Setting mode. -/
theorem light_button_presses (settings : movement_settings_t)
    (presses : List (movement_host × movement_event_t))
    (hpresses : ∀ e ∈ presses, e.2.event_type = EVENT_LIGHT_BUTTON_UP) :
    ∀ state : countdown_state_t, state.current_slot_idx < COUNTDOWN_SLOTS →
      (∀ j, (state.slots j).mode ≠ cd_setting) →
      ∃ final calls, countdown_face_loop_seq settings presses state = some (final, calls) ∧
        (final.current_slot_idx = (state.current_slot_idx + presses.length) % COUNTDOWN_SLOTS ∧
          same_but_cursor_and_pending state final) := by
  induction presses with
  | nil =>
    intro state hlt _
    exact ⟨state, [], rfl, (Nat.mod_eq_of_lt hlt).symm, rfl, rfl, rfl, rfl, rfl,
      fun _ => ⟨rfl, rfl, rfl, rfl, rfl⟩⟩
  | cons e t ih =>
    intro state hlt hno
    obtain ⟨host, event⟩ := e
    have he : event.event_type = EVENT_LIGHT_BUTTON_UP :=
      hpresses (host, event) (List.mem_cons_self _ _)
    have hev : event = { event_type := EVENT_LIGHT_BUTTON_UP, subsecond := event.subsecond } := by
      cases event; simp_all
    simp only [countdown_face_loop_seq]
    refine and_then_spec
      (P := fun st => st.current_slot_idx = (state.current_slot_idx + 1) % COUNTDOWN_SLOTS ∧
        same_but_cursor_and_pending state st) ?_ ?_
    · rw [hev]
      obtain ⟨st, c, h, hi, hf, -⟩ := light_button_next_slot host settings event.subsecond
        (slot_read_of_lt state.slots hlt) (hno _)
      exact ⟨st, c, h, hi, hf⟩
    · rintro st ⟨hi, hf⟩
      have hlt' : st.current_slot_idx < COUNTDOWN_SLOTS := by
        rw [hi]; exact Nat.mod_lt _ (by decide)
      have hno' : ∀ j, (st.slots j).mode ≠ cd_setting := fun j => by
        rw [(hf.2.2.2.2.2 j).1]; exact hno j
      obtain ⟨final, c, h, hfi, hff⟩ :=
        ih (fun e he => hpresses e (List.mem_cons_of_mem _ he)) st hlt' hno'
      refine ⟨final, c, h, ?_, same_but_cursor_and_pending_trans hf hff⟩
      rw [hfi, hi, List.length_cons]
      show (_ % 5 + _) % 5 = _ % 5
      omega

/-! ## An invariant of the states reached through the event handler -/

theorem and_then_elim {r : outcome} {f : countdown_state_t → outcome}
    {state' : countdown_state_t} {calls : List host_call}
    (h : and_then r f = some (state', calls)) :
    ∃ st1 c1 c2, r = some (st1, c1) ∧ f st1 = some (state', c2) := by
  rcases r with _ | ⟨st1, c1⟩
  · simp [and_then] at h
  · rcases hf : f st1 with _ | ⟨st2, c2⟩
    · simp [and_then, hf] at h
    · simp only [and_then, hf, Option.some.injEq, Prod.mk.injEq] at h
      exact ⟨st1, c1, c2, rfl, by rw [hf, h.1]⟩

theorem draw_establishes {state state' : countdown_state_t} {subsecond : Nat}
    {calls : List host_call} (h : draw state subsecond = some (state', calls)) :
    viewed_running_is_drawn state' := by
  rcases hv : slot_read state.slots state.current_slot_idx with _ | sl
  · simp [draw, hv] at h
  · obtain ⟨sl', c, hd, hmode, htarget, -, -, -, -, hrem⟩ := draw_frame hv subsecond
    rw [hd] at h
    simp only [Option.some.injEq, Prod.mk.injEq] at h
    obtain ⟨rfl, -⟩ := h
    intro sl2 hv2 hm2
    have : sl2 = sl' := by
      have := slot_read_update_same state.slots (slot_read_some_iff.mp hv).1 sl'
      exact Option.some.inj (hv2.symm.trans this)
    subst this
    have hr := hrem (hmode.symm.trans hm2)
    rw [htarget]
    exact hr

theorem viewed_running_is_drawn_of_same {s s' : countdown_state_t}
    (h1 : s'.slots = s.slots) (h2 : s'.now_ts = s.now_ts)
    (h3 : s'.current_slot_idx = s.current_slot_idx) (h : viewed_running_is_drawn s) :
    viewed_running_is_drawn s' := by
  intro sl hv hm
  rw [h1, h3] at hv
  rw [h2]
  exact h sl hv hm

theorem viewed_running_is_drawn_of_mode {s' : countdown_state_t}
    (h : ∀ sl, slot_read s'.slots s'.current_slot_idx = some sl → sl.mode ≠ cd_running) :
    viewed_running_is_drawn s' :=
  fun sl hv hm => absurd hm (h sl hv)

theorem abort_quick_ticks_view {s s' : countdown_state_t} {calls : List host_call}
    (h : abort_quick_ticks s = some (s', calls)) :
    s'.slots = s.slots ∧ s'.now_ts = s.now_ts ∧ s'.current_slot_idx = s.current_slot_idx := by
  unfold abort_quick_ticks at h
  split at h
  · split at h
    · exact absurd h (by simp)
    · split at h <;>
        (simp only [Option.some.injEq, Prod.mk.injEq] at h
         obtain ⟨rfl, -⟩ := h
         exact ⟨rfl, rfl, rfl⟩)
  · simp only [Option.some.injEq, Prod.mk.injEq] at h
    obtain ⟨rfl, -⟩ := h
    exact ⟨rfl, rfl, rfl⟩

theorem update_current_slot_elim {s s' : countdown_state_t}
    {f : countdown_slot_state_t → countdown_slot_state_t}
    (h : update_current_slot s f = some s') :
    ∃ sl, slot_read s.slots s.current_slot_idx = some sl ∧
      s'.current_slot_idx = s.current_slot_idx ∧
      slot_read s'.slots s'.current_slot_idx = some (f sl) := by
  rcases hv : slot_read s.slots s.current_slot_idx with _ | sl
  · simp [update_current_slot, hv] at h
  · rw [update_current_slot_of_read hv] at h
    simp only [Option.some.injEq] at h
    subst h
    exact ⟨sl, rfl, rfl, slot_read_update_same _ _ _⟩

theorem reset_viewed_mode {host : movement_host} {settings : movement_settings_t}
    {s s' : countdown_state_t} {calls : List host_call}
    (h : reset host settings s = some (s', calls)) :
    ∀ sl, slot_read s'.slots s'.current_slot_idx = some sl → sl.mode ≠ cd_running := by
  rcases hv : slot_read s.slots s.current_slot_idx with _ | sl0
  · simp [reset, update_current_slot, hv] at h
  · rw [reset_of_read host settings hv] at h
    simp only [Option.some.injEq, Prod.mk.injEq] at h
    obtain ⟨rfl, -⟩ := h
    intro sl hsl
    have := slot_read_update_same s.slots (slot_read_some_iff.mp hv).1
      { sl0 with
        mode := cd_reset, hours := sl0.set_hours, minutes := sl0.set_minutes
        seconds := sl0.set_seconds }
    have e := Option.some.inj (hsl.symm.trans this)
    rw [e]
    exact fun hc => countdown_mode_t.noConfusion hc

theorem ring_viewed_mode {host : movement_host} {settings : movement_settings_t}
    {s s' : countdown_state_t} {calls : List host_call}
    (h : ring host settings s = some (s', calls)) :
    ∀ sl, slot_read s'.slots s'.current_slot_idx = some sl → sl.mode ≠ cd_running := by
  unfold ring at h
  split at h
  · exact absurd h (by simp)
  · rename_i st' c hreset
    simp only [Option.some.injEq, Prod.mk.injEq] at h
    obtain ⟨rfl, -⟩ := h
    exact reset_viewed_mode hreset

theorem loop_keeps_viewed_running_is_drawn {host : movement_host} {event : movement_event_t}
    {settings : movement_settings_t} {s s' : countdown_state_t} {calls : List host_call}
    (hinv : viewed_running_is_drawn s)
    (h : countdown_face_loop host event settings s = some (s', calls)) :
    viewed_running_is_drawn s' := by
  obtain ⟨t, sub⟩ := event
  cases t <;> simp only [countdown_face_loop] at h
  case EVENT_ACTIVATE => exact draw_establishes h
  case EVENT_TICK =>
    obtain ⟨st1, c1, c2, -, hf⟩ := and_then_elim h
    split at hf <;> exact draw_establishes hf
  case EVENT_BACKGROUND_TASK =>
    obtain ⟨st1, c1, c2, -, hf⟩ := and_then_elim h
    exact viewed_running_is_drawn_of_mode (ring_viewed_mode hf)
  case EVENT_TIMEOUT =>
    obtain ⟨st1, c1, c2, hr, hf⟩ := and_then_elim h
    simp only [Option.some.injEq, Prod.mk.injEq] at hf
    obtain ⟨rfl, -⟩ := hf
    obtain ⟨h1, h2, h3⟩ := abort_quick_ticks_view hr
    exact viewed_running_is_drawn_of_same h1 h2 h3 hinv
  case EVENT_MODE_BUTTON_UP =>
    obtain ⟨st1, c1, c2, hr, hf⟩ := and_then_elim h
    simp only [Option.some.injEq, Prod.mk.injEq] at hf
    obtain ⟨rfl, -⟩ := hf
    obtain ⟨h1, h2, h3⟩ := abort_quick_ticks_view hr
    exact viewed_running_is_drawn_of_same h1 h2 h3 hinv
  case EVENT_ALARM_LONG_UP =>
    obtain ⟨h1, h2, h3⟩ := abort_quick_ticks_view h
    exact viewed_running_is_drawn_of_same h1 h2 h3 hinv
  case EVENT_LIGHT_BUTTON_UP =>
    split at h
    · exact absurd h (by simp)
    · split at h
      · split at h
        · split at h
          · exact absurd h (by simp)
          · split at h
            · exact absurd h (by simp)
            · obtain ⟨st1, c1, c2, -, hf⟩ := and_then_elim h
              exact draw_establishes hf
        · exact draw_establishes h
      · exact draw_establishes h
  case EVENT_ALARM_BUTTON_UP =>
    split at h
    · exact absurd h (by simp)
    · obtain ⟨st1, c1, c2, -, hf⟩ := and_then_elim h
      exact draw_establishes hf
  case EVENT_ALARM_LONG_PRESS =>
    split at h
    · exact absurd h (by simp)
    · split at h <;>
        (simp only [Option.some.injEq, Prod.mk.injEq] at h
         obtain ⟨rfl, -⟩ := h
         exact viewed_running_is_drawn_of_same rfl rfl rfl hinv)
  case EVENT_LIGHT_LONG_PRESS =>
    split at h
    · exact absurd h (by simp)
    · rename_i sl hv
      split at h
      · -- Setting: the zeroed slot is still in Setting mode
        rename_i hm
        have key : ∀ (f : countdown_slot_state_t → countdown_slot_state_t),
            (∀ x, (f x).mode = x.mode) → ∀ st', update_current_slot s f = some st' →
            viewed_running_is_drawn st' := by
          intro f hfm st' hu
          obtain ⟨sl0, hr0, -, hr1⟩ := update_current_slot_elim hu
          have e : sl0 = sl := Option.some.inj (hr0.symm.trans hv)
          subst e
          refine viewed_running_is_drawn_of_mode fun x hx => ?_
          have e2 : x = f sl0 := Option.some.inj (hx.symm.trans hr1)
          rw [e2, hfm, hm]
          exact fun hc => countdown_mode_t.noConfusion hc
        split at h
        · split at h
          · exact absurd h (by simp)
          · rename_i st' hu
            simp only [Option.some.injEq, Prod.mk.injEq] at h
            obtain ⟨rfl, -⟩ := h
            exact key _ (fun _ => by rfl) _ hu
        · split at h
          · exact absurd h (by simp)
          · rename_i st' hu
            simp only [Option.some.injEq, Prod.mk.injEq] at h
            obtain ⟨rfl, -⟩ := h
            exact key _ (fun _ => by rfl) _ hu
        · split at h
          · exact absurd h (by simp)
          · rename_i st' hu
            simp only [Option.some.injEq, Prod.mk.injEq] at h
            obtain ⟨rfl, -⟩ := h
            exact key _ (fun _ => by rfl) _ hu
        · simp only [Option.some.injEq, Prod.mk.injEq] at h
          obtain ⟨rfl, -⟩ := h
          exact hinv
      · -- Paused: restored
        obtain ⟨st1, c1, c2, hr, hf⟩ := and_then_elim h
        simp only [Option.some.injEq, Prod.mk.injEq] at hf
        obtain ⟨rfl, -⟩ := hf
        exact viewed_running_is_drawn_of_mode (reset_viewed_mode hr)
      · -- Reset or Running: into Setting
        split at h
        · exact absurd h (by simp)
        · rename_i st' hu
          simp only [Option.some.injEq, Prod.mk.injEq] at h
          obtain ⟨rfl, -⟩ := h
          obtain ⟨sl0, -, -, hr1⟩ := update_current_slot_elim hu
          refine viewed_running_is_drawn_of_mode fun x hx => ?_
          have e2 := Option.some.inj (hx.symm.trans hr1)
          rw [e2]
          exact fun hc => countdown_mode_t.noConfusion hc
  all_goals
    simp only [Option.some.injEq, Prod.mk.injEq] at h
    obtain ⟨rfl, -⟩ := h
    exact hinv

theorem reachable_viewed_running_is_drawn {state : countdown_state_t}
    (h : reachable_by_events state) : viewed_running_is_drawn state := by
  induction h with
  | setup hs =>
    rename_i w st
    rw [countdown_face_setup_none] at hs
    simp only [Option.some.injEq] at hs
    subst hs
    refine viewed_running_is_drawn_of_mode fun x hx => ?_
    have e := Option.some.inj (hx.symm.trans (slot_read_fin (setup_state w).slots 0))
    rw [e]
    exact fun hc => countdown_mode_t.noConfusion hc
  | loop _ hstep ih => exact loop_keeps_viewed_running_is_drawn ih hstep

theorem reachable_by_events_seq (settings : movement_settings_t)
    (events : List (movement_host × movement_event_t)) :
    ∀ (state state' : countdown_state_t) (calls : List host_call),
      reachable_by_events state →
      countdown_face_loop_seq settings events state = some (state', calls) →
      reachable_by_events state' := by
  induction events with
  | nil =>
    intro state state' calls hr h
    simp only [countdown_face_loop_seq, Option.some.injEq, Prod.mk.injEq] at h
    obtain ⟨rfl, -⟩ := h
    exact hr
  | cons e t ih =>
    intro state state' calls hr h
    obtain ⟨host, event⟩ := e
    simp only [countdown_face_loop_seq] at h
    obtain ⟨st1, c1, c2, h1, h2⟩ := and_then_elim h
    exact ih st1 state' c2 (reachable_by_events.loop hr h1) h2

/-! # Claims -/

/-- C1. For a viewed slot with pending duration `(h, m, s)`, `h < 24`, `m < 60`, `s < 60`, and a
host whose `watch_utility_offset_timestamp` adds `3600 h + 60 m + s` without leaving 32 bits,
`start` succeeds, leaves the slot running with `target_ts - now_ts` equal to a delta whose
decomposition (`delta mod 60`, `(delta / 60) mod 60`, `delta / 3600`) is `(s, m, h)`, and the
`draw` that follows writes exactly `(h, m, s)` into the pending fields. -/
theorem start_target_decomposes (host : movement_host) (settings : movement_settings_t)
    (state : countdown_state_t) (sl : countdown_slot_state_t) (subsecond : Nat)
    (hv : slot_read state.slots state.current_slot_idx = some sl)
    (hh : sl.hours < 24) (hm : sl.minutes < 60) (hs : sl.seconds < 60)
    (hoff : ∀ now h m s,
      host.watch_utility_offset_timestamp now h m s = now + 3600 * h + 60 * m + s)
    (hno : u32 (host.watch_utility_date_time_to_unix_time host.watch_rtc_get_date_time
        (get_tz_offset host settings)) + 3600 * sl.hours + 60 * sl.minutes + sl.seconds
      ≤ UINT32_MAX) :
    ∃ st1 calls1 sl1, start host settings state = some (st1, calls1) ∧
      slot_read st1.slots st1.current_slot_idx = some sl1 ∧ sl1.mode = cd_running ∧
      st1.now_ts = u32 (host.watch_utility_date_time_to_unix_time host.watch_rtc_get_date_time
        (get_tz_offset host settings)) ∧
      sl1.target_ts = st1.now_ts + 3600 * sl.hours + 60 * sl.minutes + sl.seconds ∧
      (sl1.target_ts - st1.now_ts) % 60 = sl.seconds ∧
      (sl1.target_ts - st1.now_ts) / 60 % 60 = sl.minutes ∧
      (sl1.target_ts - st1.now_ts) / 3600 = sl.hours ∧
      ∃ st2 calls2 sl2, draw st1 subsecond = some (st2, calls2) ∧
        slot_read st2.slots st2.current_slot_idx = some sl2 ∧
        sl2.hours = sl.hours ∧ sl2.minutes = sl.minutes ∧ sl2.seconds = sl.seconds ∧
        sl2.mode = cd_running ∧ sl2.target_ts = sl1.target_ts := by
  obtain ⟨hlt, hsl⟩ := slot_read_some_iff.mp hv
  generalize hnow : u32 (host.watch_utility_date_time_to_unix_time host.watch_rtc_get_date_time
        (get_tz_offset host settings)) = now at hno
  have hmax : UINT32_MAX = 4294967295 := rfl
  have htgt : u32 (host.watch_utility_offset_timestamp now sl.hours sl.minutes sl.seconds) =
      now + 3600 * sl.hours + 60 * sl.minutes + sl.seconds := by
    rw [hoff]; unfold u32; omega
  have hv0 : slot_read ({ state with now_ts := now } : countdown_state_t).slots
      ({ state with now_ts := now } : countdown_state_t).current_slot_idx = some sl := hv
  obtain ⟨n, calls1, hR⟩ := update_next_alarm_shape host settings
      { state with
        now_ts := now
        slots := Function.update state.slots ⟨state.current_slot_idx, hlt⟩
          { sl with mode := cd_running
                    target_ts := now + 3600 * sl.hours + 60 * sl.minutes + sl.seconds } }
  have hstart : start host settings state = some (
      { state with
        now_ts := now
        next_alarm_slot_idx := n
        slots := Function.update state.slots ⟨state.current_slot_idx, hlt⟩
          { sl with mode := cd_running
                    target_ts := now + 3600 * sl.hours + 60 * sl.minutes + sl.seconds } },
      calls1) := by
    unfold start
    simp only [hnow]
    rw [update_current_slot_of_read hv0, htgt]
    simp only [hR]
  have hv1 := slot_read_update_same state.slots hlt
    { sl with mode := cd_running
              target_ts := now + 3600 * sl.hours + 60 * sl.minutes + sl.seconds }
  refine ⟨_, _, _, hstart, hv1, rfl, rfl, rfl, ?_, ?_, ?_, ?_⟩
  · show (now + 3600 * sl.hours + 60 * sl.minutes + sl.seconds - now) % 60 = _; omega
  · show (now + 3600 * sl.hours + 60 * sl.minutes + sl.seconds - now) / 60 % 60 = _; omega
  · show (now + 3600 * sl.hours + 60 * sl.minutes + sl.seconds - now) / 3600 = _; omega
  · obtain ⟨calls2, hdraw⟩ := @draw_of_running { state with
        now_ts := now
        next_alarm_slot_idx := n
        slots := Function.update state.slots ⟨state.current_slot_idx, hlt⟩
          { sl with mode := cd_running
                    target_ts := now + 3600 * sl.hours + 60 * sl.minutes + sl.seconds } } _
        hv1 rfl subsecond
    have hdelta : u32 (now + 3600 * sl.hours + 60 * sl.minutes + sl.seconds + 4294967296 - now) =
        3600 * sl.hours + 60 * sl.minutes + sl.seconds := by
      unfold u32; omega
    obtain ⟨d1, d2, d3⟩ := draw_decompose hh hm hs hdelta
    refine ⟨_, _, _, hdraw, slot_read_update_same _ hlt _, d2, d3, d1, rfl, rfl⟩

/-- C1, instance: slot 0 holds (1, 2, 3) and the clock reads 1000. -/
theorem start_target_decomposes_witness :
    ∃ st1 calls1 st2 calls2 sl2,
      start (demo_host 1000 false) demo_settings
          (demo_state (demo_slot cd_reset 0 1 2 3 0 0 0)) = some (st1, calls1) ∧
        draw st1 0 = some (st2, calls2) ∧
        slot_read st2.slots st2.current_slot_idx = some sl2 ∧
        sl2.hours = 1 ∧ sl2.minutes = 2 ∧ sl2.seconds = 3 := by
  obtain ⟨st1, calls1, _, h1, _, _, _, _, _, _, _, st2, calls2, sl2, h2, h3, h4, h5, h6, _⟩ :=
    start_target_decomposes (demo_host 1000 false) demo_settings
      (demo_state (demo_slot cd_reset 0 1 2 3 0 0 0)) (demo_slot cd_reset 0 1 2 3 0 0 0) 0
      (by decide) (by decide) (by decide) (by decide) (fun _ _ _ _ => rfl) (by decide)
  exact ⟨st1, calls1, st2, calls2, sl2, h1, h2, h3, h4, h5, h6⟩

/-- C2. When the viewed slot is in Reset or Paused mode with pending duration `(0, 0, 0)`, the
handler of `EVENT_ALARM_BUTTON_UP` returns the state it was given, and its only host calls
are the two of `draw` (clearing the bell indicator and writing the display): no wake is
scheduled or cancelled and no tone is played. -/
theorem alarm_button_zero_duration_rejected (host : movement_host)
    (settings : movement_settings_t) (state : countdown_state_t) (sl : countdown_slot_state_t)
    (subsecond : Nat)
    (hv : slot_read state.slots state.current_slot_idx = some sl)
    (hmode : sl.mode = cd_reset ∨ sl.mode = cd_paused)
    (hzero : sl.hours = 0 ∧ sl.minutes = 0 ∧ sl.seconds = 0) :
    countdown_face_loop host { event_type := EVENT_ALARM_BUTTON_UP, subsecond := subsecond }
        settings state =
      some (state, [watch_clear_indicator_bell,
        watch_display_string (sprintf_cd (state.current_slot_idx + 1) 0 0 0) 0]) := by
  have hd := draw_of_reset_or_paused hv hmode subsecond
  rw [hzero.1, hzero.2.1, hzero.2.2] at hd
  unfold countdown_face_loop
  simp only [hv]
  rcases hmode with hm | hm <;> simp [hm, hzero, and_then, hd]

/-- C2, instance: the state after setup, whose viewed slot is Reset with duration zero. -/
theorem alarm_button_zero_duration_rejected_witness :
    countdown_face_loop (demo_host 1000 false)
        { event_type := EVENT_ALARM_BUTTON_UP, subsecond := 0 } demo_settings (setup_state 0) =
      some (setup_state 0, [watch_clear_indicator_bell,
        watch_display_string (sprintf_cd ((setup_state 0).current_slot_idx + 1) 0 0 0) 0]) :=
  alarm_button_zero_duration_rejected (demo_host 1000 false) demo_settings (setup_state 0)
    (demo_slot cd_reset 0 0 0 0 0 0 0) 0 (by decide) (by decide) (by decide)

/-- C3. From a state whose viewed slot is Running with saved duration `S`, any number of
tick events followed by `EVENT_ALARM_BUTTON_UP` leaves the slot Paused, and the
`EVENT_LIGHT_LONG_PRESS` that follows leaves it in Reset mode with pending duration `S`
and saved duration still `S`. -/
theorem pause_then_restore_loads_saved (settings : movement_settings_t)
    (state : countdown_state_t) (sl : countdown_slot_state_t)
    (ticks : List (movement_host × movement_event_t)) (host1 host2 : movement_host)
    (subsecond1 subsecond2 : Nat)
    (hv : slot_read state.slots state.current_slot_idx = some sl)
    (hm : sl.mode = cd_running)
    (hticks : ∀ e ∈ ticks, e.2.event_type = EVENT_TICK) :
    (∃ paused calls, countdown_face_loop_seq settings
          (ticks ++ [(host1, { event_type := EVENT_ALARM_BUTTON_UP, subsecond := subsecond1 })])
          state = some (paused, calls) ∧
        viewed_mode_saved paused cd_paused sl.set_hours sl.set_minutes sl.set_seconds) ∧
      ∃ state' calls, countdown_face_loop_seq settings
          (ticks ++ [(host1, { event_type := EVENT_ALARM_BUTTON_UP, subsecond := subsecond1 }),
            (host2, { event_type := EVENT_LIGHT_LONG_PRESS, subsecond := subsecond2 })])
          state = some (state', calls) ∧
        state'.current_slot_idx = state.current_slot_idx ∧
        ∃ sl', slot_read state'.slots state'.current_slot_idx = some sl' ∧
          sl'.mode = cd_reset ∧
          sl'.hours = sl.set_hours ∧ sl'.minutes = sl.set_minutes ∧
          sl'.seconds = sl.set_seconds ∧
          sl'.set_hours = sl.set_hours ∧ sl'.set_minutes = sl.set_minutes ∧
          sl'.set_seconds = sl.set_seconds := by
  have hvs : viewed_mode_saved state cd_running sl.set_hours sl.set_minutes sl.set_seconds :=
    ⟨sl, hv, hm, rfl, rfl, rfl⟩
  have hrun := ticks_keep_running settings ticks hticks state.current_slot_idx state rfl hvs
  constructor
  · rw [countdown_face_loop_seq_append]
    refine and_then_spec hrun ?_
    rintro st ⟨-, hst⟩
    simp only [countdown_face_loop_seq]
    refine and_then_spec (confirm_pauses_running host1 settings hst subsecond1) ?_
    rintro st' ⟨-, hst'⟩
    exact ⟨st', [], rfl, hst'⟩
  · rw [countdown_face_loop_seq_append]
    refine and_then_spec hrun ?_
    rintro st ⟨hi, hst⟩
    simp only [countdown_face_loop_seq]
    refine and_then_spec (confirm_pauses_running host1 settings hst subsecond1) ?_
    rintro st' ⟨hi', hst'⟩
    refine and_then_spec (restore_resets_paused host2 settings hst' subsecond2) ?_
    rintro st'' ⟨hi'', hst''⟩
    exact ⟨st'', [], rfl, hi''.trans (hi'.trans hi), hst''⟩

/-- C3, instance: slot 0 runs towards 1005 with saved duration (0, 0, 5); three ticks, the
alarm pin low, then pause and restore. -/
theorem pause_then_restore_loads_saved_witness :
    ∃ state' calls sl', countdown_face_loop_seq demo_settings
          ([(demo_host 1000 false, { event_type := EVENT_TICK, subsecond := 0 }),
            (demo_host 1001 false, { event_type := EVENT_TICK, subsecond := 0 }),
            (demo_host 1002 false, { event_type := EVENT_TICK, subsecond := 0 })] ++
            [(demo_host 1003 false, { event_type := EVENT_ALARM_BUTTON_UP, subsecond := 0 }),
             (demo_host 1004 false, { event_type := EVENT_LIGHT_LONG_PRESS, subsecond := 0 })])
          { demo_state (demo_slot cd_running 1005 0 0 5 0 0 5) with now_ts := 1000 } =
            some (state', calls) ∧
        slot_read state'.slots state'.current_slot_idx = some sl' ∧
        sl'.mode = cd_reset ∧ sl'.hours = 0 ∧ sl'.minutes = 0 ∧ sl'.seconds = 5 ∧
        sl'.set_hours = 0 ∧ sl'.set_minutes = 0 ∧ sl'.set_seconds = 5 := by
  obtain ⟨-, st, c, h, -, sl', h'⟩ :=
    pause_then_restore_loads_saved demo_settings
      { demo_state (demo_slot cd_running 1005 0 0 5 0 0 5) with now_ts := 1000 }
      (demo_slot cd_running 1005 0 0 5 0 0 5)
      [(demo_host 1000 false, { event_type := EVENT_TICK, subsecond := 0 }),
        (demo_host 1001 false, { event_type := EVENT_TICK, subsecond := 0 }),
        (demo_host 1002 false, { event_type := EVENT_TICK, subsecond := 0 })]
      (demo_host 1003 false) (demo_host 1004 false) 0 0 (by decide) (by decide)
      (by simp)
  exact ⟨st, c, sl', h, h'⟩

/-- C4 (amended). When some Running slot has a `target_ts` below `UINT32_MAX`,
`update_next_alarm` sets `next_alarm_slot_idx` to the lowest index among the Running slots
of minimal `target_ts`, changes nothing else, and its only host call schedules the
background task at that minimal `target_ts`; any state with the same Running slots and the
same targets on them gets the same index and the same timestamp, whatever its other
slots hold. -/
theorem update_next_alarm_picks_earliest (host : movement_host)
    (settings : movement_settings_t) (state : countdown_state_t)
    (hrun : ∃ j, (state.slots j).mode = cd_running ∧ (state.slots j).target_ts < UINT32_MAX) :
    ∃ k : Fin COUNTDOWN_SLOTS,
      (state.slots k).mode = cd_running ∧
      (∀ j, (state.slots j).mode = cd_running →
        (state.slots k).target_ts ≤ (state.slots j).target_ts) ∧
      (∀ j, j < k → (state.slots j).mode = cd_running →
        (state.slots k).target_ts < (state.slots j).target_ts) ∧
      update_next_alarm host settings state =
        ({ state with next_alarm_slot_idx := k.val },
          [movement_schedule_background_task_for_face state.watch_face_idx
            (host.watch_utility_date_time_from_unix_time (state.slots k).target_ts
              (get_tz_offset host settings))]) ∧
      ∀ other : countdown_state_t,
        (∀ j, (other.slots j).mode = cd_running ↔ (state.slots j).mode = cd_running) →
        (∀ j, (state.slots j).mode = cd_running →
          (other.slots j).target_ts = (state.slots j).target_ts) →
        update_next_alarm host settings other =
          ({ other with next_alarm_slot_idx := k.val },
            [movement_schedule_background_task_for_face other.watch_face_idx
              (host.watch_utility_date_time_from_unix_time (state.slots k).target_ts
                (get_tz_offset host settings))]) := by
  obtain ⟨j0, hj0, hj0lt⟩ := hrun
  rcases update_next_alarm_cases host settings state with ⟨hno, -⟩ | ⟨k, hk, heq⟩
  · exact absurd (hno j0 hj0) (not_le.mpr hj0lt)
  · refine ⟨k, hk.2.1, fun j => hk.2.2.2.1 j (List.mem_finRange j),
      fun j => hk.2.2.2.2 j (List.mem_finRange j), heq, ?_⟩
    intro other hmode htarget
    rcases update_next_alarm_cases host settings other with ⟨hno, -⟩ | ⟨k2, hk2, heq2⟩
    · have h1 := hno j0 ((hmode j0).mpr hj0)
      rw [htarget j0 hj0] at h1
      exact absurd h1 (not_le.mpr hj0lt)
    · have hkk : k2 = k := picked_unique hmode htarget hk hk2
      subst hkk
      rw [heq2, htarget k2 hk.2.1]

/-- C4, instance: slots 1 and 3 run towards 2000 and 1500, the other slots are idle. -/
theorem update_next_alarm_picks_earliest_witness :
    ∃ k : Fin COUNTDOWN_SLOTS,
      ((demo_state_two 1 3 2000 1500).slots k).mode = cd_running ∧
      update_next_alarm (demo_host 1000 false) demo_settings (demo_state_two 1 3 2000 1500) =
        ({ demo_state_two 1 3 2000 1500 with next_alarm_slot_idx := k.val },
          [movement_schedule_background_task_for_face 0
            ((demo_state_two 1 3 2000 1500).slots k).target_ts]) := by
  obtain ⟨k, hk, -, -, heq, -⟩ :=
    update_next_alarm_picks_earliest (demo_host 1000 false) demo_settings
      (demo_state_two 1 3 2000 1500) ⟨3, by decide, by decide⟩
  exact ⟨k, hk, heq⟩

/-- C4, counterexample: slot 0 is the only Running slot and its `target_ts` is `UINT32_MAX`.
`update_next_alarm` leaves `next_alarm_slot_idx` at 5 and cancels the background task
instead of scheduling it. -/
theorem update_next_alarm_picks_earliest_counterexample :
    ((demo_state (demo_slot cd_running 4294967295 0 0 5 0 0 5)).slots 0).mode = cd_running ∧
      (update_next_alarm (demo_host 1000 false) demo_settings
        (demo_state (demo_slot cd_running 4294967295 0 0 5 0 0 5))).1.next_alarm_slot_idx = 5 ∧
      (update_next_alarm (demo_host 1000 false) demo_settings
        (demo_state (demo_slot cd_running 4294967295 0 0 5 0 0 5))).2 =
        [movement_cancel_background_task_for_face 0] := by
  decide

/-- C5 (amended). Let exactly two slots be Running, with targets `T1 < T2 < UINT32_MAX`.
Recomputing the schedule requests the wake at `T1` and records the slot of `T1`; handling
`EVENT_BACKGROUND_TASK` in the recomputed state then leaves that slot in Reset mode and the
one wake request of the handler is at `T2`. -/
theorem two_running_wake_order (host : movement_host) (settings : movement_settings_t)
    (state : countdown_state_t) (i j : Fin COUNTDOWN_SLOTS) (subsecond : Nat)
    (hi : (state.slots i).mode = cd_running) (hj : (state.slots j).mode = cd_running)
    (hothers : ∀ k, (state.slots k).mode = cd_running → k = i ∨ k = j)
    (hlt : (state.slots i).target_ts < (state.slots j).target_ts)
    (hmax : (state.slots j).target_ts < UINT32_MAX) :
    update_next_alarm host settings state =
        ({ state with next_alarm_slot_idx := i.val },
          [movement_schedule_background_task_for_face state.watch_face_idx
            (host.watch_utility_date_time_from_unix_time (state.slots i).target_ts
              (get_tz_offset host settings))]) ∧
      ∃ state',
        countdown_face_loop host { event_type := EVENT_BACKGROUND_TASK, subsecond := subsecond }
            settings (update_next_alarm host settings state).1 =
          some (state',
            [movement_move_to_face state.watch_face_idx,
              movement_schedule_background_task_for_face state.watch_face_idx
                (host.watch_utility_date_time_from_unix_time (state.slots j).target_ts
                  (get_tz_offset host settings)),
              watch_clear_indicator_bell, movement_play_alarm]) ∧
        state'.current_slot_idx = i.val ∧ (state'.slots i).mode = cd_reset ∧
        state'.slots j = state.slots j ∧ state'.next_alarm_slot_idx = j.val := by
  have hij : i ≠ j := by
    rintro rfl
    exact lt_irrefl _ hlt
  have hfirst : update_next_alarm host settings state =
        ({ state with next_alarm_slot_idx := i.val },
          [movement_schedule_background_task_for_face state.watch_face_idx
            (host.watch_utility_date_time_from_unix_time (state.slots i).target_ts
              (get_tz_offset host settings))]) := by
    rcases update_next_alarm_cases host settings state with ⟨hno, -⟩ | ⟨k, hk, heq⟩
    · exact absurd (hno j hj) (not_le.mpr hmax)
    · rcases hothers k hk.2.1 with rfl | rfl
      · exact heq
      · exact absurd (hk.2.2.2.1 i (List.mem_finRange i) hi) (not_le.mpr hlt)
  refine ⟨hfirst, ?_⟩
  rw [hfirst]
  rw [background_task_of_next host settings _ i subsecond rfl]
  -- the recomputation inside `reset`, with slot `i` no longer running
  generalize hX : ({ ({ state with next_alarm_slot_idx := i.val } : countdown_state_t) with
      current_slot_idx := i.val
      slots := Function.update state.slots i { state.slots i with mode := cd_reset } } :
      countdown_state_t) = X
  have hXi : (X.slots i).mode = cd_reset := by
    subst hX; simp
  have hXo : ∀ k, k ≠ i → X.slots k = state.slots k := by
    intro k hk; subst hX; exact Function.update_noteq hk _ _
  have hXf : X.watch_face_idx = state.watch_face_idx := by subst hX; rfl
  have hsecond : update_next_alarm host settings X =
      ({ X with next_alarm_slot_idx := j.val },
          [movement_schedule_background_task_for_face state.watch_face_idx
            (host.watch_utility_date_time_from_unix_time (state.slots j).target_ts
              (get_tz_offset host settings))]) := by
    have hXj : X.slots j = state.slots j := hXo j (Ne.symm hij)
    rcases update_next_alarm_cases host settings X with ⟨hno, -⟩ | ⟨k, hk, heq⟩
    · have := hno j (by rw [hXj]; exact hj)
      rw [hXj] at this
      exact absurd this (not_le.mpr hmax)
    · have hki : k ≠ i := by
        rintro rfl
        have := hk.2.1
        rw [hXi] at this
        exact absurd this (by decide)
      have hkr : (state.slots k).mode = cd_running := by
        rw [← hXo k hki]; exact hk.2.1
      rcases hothers k hkr with rfl | rfl
      · exact absurd rfl hki
      · rw [heq, hXj, hXf]
  rw [hsecond]
  refine ⟨_, rfl, rfl, ?_, ?_, rfl⟩
  · simp
  · exact Function.update_noteq (Ne.symm hij) _ _

/-- C5, instance: slot 3 runs towards 1500 and slot 1 towards 2000. -/
theorem two_running_wake_order_witness :
    ∃ state',
      countdown_face_loop (demo_host 1500 false)
          { event_type := EVENT_BACKGROUND_TASK, subsecond := 0 } demo_settings
          (update_next_alarm (demo_host 1500 false) demo_settings
            (demo_state_two 1 3 2000 1500)).1 =
        some (state',
          [movement_move_to_face 0, movement_schedule_background_task_for_face 0 2000,
            watch_clear_indicator_bell, movement_play_alarm]) ∧
      (state'.slots 3).mode = cd_reset := by
  obtain ⟨-, st, h, -, hm, -⟩ :=
    two_running_wake_order (demo_host 1500 false) demo_settings (demo_state_two 1 3 2000 1500)
      3 1 0 (by decide) (by decide) (by decide) (by decide) (by decide)
  exact ⟨st, h, hm⟩

/-- C5, counterexample: slot 3 runs towards `T1 = 1500` and slot 1 towards
`T2 = UINT32_MAX`. The recomputation schedules the wake at 1500; the handler of
`EVENT_BACKGROUND_TASK` then resets slot 3, leaves slot 1 Running, and cancels the
background task instead of scheduling it at `T2`. -/
theorem two_running_wake_order_counterexample :
    (update_next_alarm (demo_host 1500 false) demo_settings
        (demo_state_two 1 3 4294967295 1500)).2 =
        [movement_schedule_background_task_for_face 0 1500] ∧
      (countdown_face_loop (demo_host 1500 false)
          { event_type := EVENT_BACKGROUND_TASK, subsecond := 0 } demo_settings
          (update_next_alarm (demo_host 1500 false) demo_settings
            (demo_state_two 1 3 4294967295 1500)).1).map
          (fun r => ((r.1.slots 3).mode, (r.1.slots 1).mode, (r.1.slots 1).target_ts, r.2)) =
        some (cd_reset, cd_running, 4294967295,
          [movement_move_to_face 0, movement_cancel_background_task_for_face 0,
            watch_clear_indicator_bell, movement_play_alarm]) := by
  decide

/-- C6 (amended). When no slot is Running, `update_next_alarm` returns the state it was
given, `next_alarm_slot_idx` included, and its only host call cancels the background
task of the face. -/
theorem update_next_alarm_none_running (host : movement_host) (settings : movement_settings_t)
    (state : countdown_state_t) (hnone : ∀ j, (state.slots j).mode ≠ cd_running) :
    update_next_alarm host settings state =
      (state, [movement_cancel_background_task_for_face state.watch_face_idx]) := by
  rcases update_next_alarm_cases host settings state with ⟨-, heq⟩ | ⟨k, hk, -⟩
  · exact heq
  · exact absurd hk.2.1 (hnone k)

/-- C6, instance: the state after setup. -/
theorem update_next_alarm_none_running_witness :
    update_next_alarm (demo_host 1000 false) demo_settings (setup_state 7) =
      (setup_state 7, [movement_cancel_background_task_for_face 7]) :=
  update_next_alarm_none_running (demo_host 1000 false) demo_settings (setup_state 7)
    (by decide)

/-- C6, counterexample: slot 0 is the only Running slot, with saved duration (0, 0, 5) and
target 1005, and is the recorded next alarm. After `EVENT_BACKGROUND_TASK` no slot is
Running and the background task is cancelled, but `next_alarm_slot_idx` is still 0, not
`COUNTDOWN_SLOTS`. -/
theorem background_task_keeps_next_alarm_slot_counterexample :
    ((countdown_face_loop (demo_host 1005 false)
          { event_type := EVENT_BACKGROUND_TASK, subsecond := 0 } demo_settings
          { demo_state (demo_slot cd_running 1005 0 0 0 0 0 5) with
            now_ts := 1005, next_alarm_slot_idx := 0 }).map
        (fun r => (r.1.next_alarm_slot_idx, any_slot_running r.1, (r.1.slots 0).mode,
          (r.1.slots 0).seconds, r.2)) =
      some (0, false, cd_reset, 5,
        [movement_move_to_face 0, movement_cancel_background_task_for_face 0,
          watch_clear_indicator_bell, movement_play_alarm])) ∧
      (0 : Nat) ≠ COUNTDOWN_SLOTS := by
  decide

/-- C7. When `next_alarm_slot_idx` is a slot index `k`, the handler of
`EVENT_BACKGROUND_TASK` makes `k` the viewed slot, puts slot `k` in Reset mode with its
pending duration loaded from its saved duration, leaves every other slot as it was, and
calls `movement_move_to_face` for this face first and `movement_play_alarm` last; in
between it recomputes the wake (one cancel or one schedule call) and clears the bell
indicator. -/
theorem background_task_resets_next_alarm_slot (host : movement_host)
    (settings : movement_settings_t) (state : countdown_state_t) (k : Fin COUNTDOWN_SLOTS)
    (subsecond : Nat) (hk : state.next_alarm_slot_idx = k.val) :
    ∃ state' wake,
      countdown_face_loop host { event_type := EVENT_BACKGROUND_TASK, subsecond := subsecond }
          settings state =
        some (state', movement_move_to_face state.watch_face_idx ::
          (wake ++ [watch_clear_indicator_bell, movement_play_alarm])) ∧
      (wake = [movement_cancel_background_task_for_face state.watch_face_idx] ∨
        ∃ date_time,
          wake = [movement_schedule_background_task_for_face state.watch_face_idx date_time]) ∧
      state'.current_slot_idx = k.val ∧
      state'.slots k =
        { state.slots k with
          mode := cd_reset, hours := (state.slots k).set_hours
          minutes := (state.slots k).set_minutes, seconds := (state.slots k).set_seconds } ∧
      (∀ j, j ≠ k → state'.slots j = state.slots j) ∧
      state'.now_ts = state.now_ts ∧ state'.selection = state.selection ∧
      state'.quick_ticks_running = state.quick_ticks_running := by
  refine ⟨_, _, background_task_of_next host settings state k subsecond hk, ?_, rfl, ?_, ?_,
    rfl, rfl, rfl⟩
  · rcases update_next_alarm_cases host settings { state with
            current_slot_idx := k.val
            slots := Function.update state.slots k
              { state.slots k with mode := cd_reset } } with ⟨-, heq⟩ | ⟨k', -, heq⟩
    · left; rw [heq]
    · right; rw [heq]; exact ⟨_, rfl⟩
  · simp
  · intro j hj
    exact Function.update_noteq hj _ _

/-- C7, instance: slot 2 is recorded as the next alarm while slot 0 is viewed. -/
theorem background_task_resets_next_alarm_slot_witness :
    ∃ state' calls,
      countdown_face_loop (demo_host 1005 false)
          { event_type := EVENT_BACKGROUND_TASK, subsecond := 0 } demo_settings
          { demo_state_two 2 2 1005 1005 with next_alarm_slot_idx := 2 } =
        some (state', calls) ∧
      state'.current_slot_idx = 2 ∧ (state'.slots 2).mode = cd_reset := by
  obtain ⟨st, wake, h, -, hi, hs, -⟩ :=
    background_task_resets_next_alarm_slot (demo_host 1005 false) demo_settings
      { demo_state_two 2 2 1005 1005 with next_alarm_slot_idx := 2 } 2 0 (by decide)
  exact ⟨st, _, h, hi, by rw [hs]⟩

/-- C8. From a state whose viewed slot is in Setting mode with `selection = 0` and pending
duration `d`, the first `EVENT_LIGHT_BUTTON_UP` changes only `selection`, to 1, the second
changes only `selection`, to 2, and the third leaves `selection = 0` and the slot in Reset
mode with pending duration `d` and saved duration `d`. -/
theorem light_button_cycles_then_commits (host1 host2 host3 : movement_host)
    (settings : movement_settings_t) (state : countdown_state_t) (sl : countdown_slot_state_t)
    (subsecond1 subsecond2 subsecond3 : Nat)
    (hv : slot_read state.slots state.current_slot_idx = some sl)
    (hm : sl.mode = cd_setting) (hsel : state.selection = 0) :
    (∃ calls1,
        countdown_face_loop host1 { event_type := EVENT_LIGHT_BUTTON_UP, subsecond := subsecond1 }
          settings state = some ({ state with selection := 1 }, calls1)) ∧
      (∃ calls2,
        countdown_face_loop host2 { event_type := EVENT_LIGHT_BUTTON_UP, subsecond := subsecond2 }
          settings { state with selection := 1 } = some ({ state with selection := 2 }, calls2)) ∧
      (∃ final calls3 sl',
        countdown_face_loop host3 { event_type := EVENT_LIGHT_BUTTON_UP, subsecond := subsecond3 }
          settings { state with selection := 2 } = some (final, calls3) ∧
        final.selection = 0 ∧
        final.current_slot_idx = state.current_slot_idx ∧
        slot_read final.slots final.current_slot_idx = some sl' ∧
        sl' = { sl with
          mode := cd_reset, set_hours := sl.hours, set_minutes := sl.minutes
          set_seconds := sl.seconds } ∧
        (∀ j : Fin COUNTDOWN_SLOTS, j.val ≠ state.current_slot_idx →
          final.slots j = state.slots j)) ∧
      ∃ final calls,
        countdown_face_loop_seq settings
          [(host1, { event_type := EVENT_LIGHT_BUTTON_UP, subsecond := subsecond1 }),
           (host2, { event_type := EVENT_LIGHT_BUTTON_UP, subsecond := subsecond2 }),
           (host3, { event_type := EVENT_LIGHT_BUTTON_UP, subsecond := subsecond3 })] state =
          some (final, calls) ∧
        final.selection = 0 ∧
        ∃ sl', slot_read final.slots final.current_slot_idx = some sl' ∧
          sl'.mode = cd_reset ∧
          sl'.hours = sl.hours ∧ sl'.minutes = sl.minutes ∧ sl'.seconds = sl.seconds ∧
          sl'.set_hours = sl.hours ∧ sl'.set_minutes = sl.minutes ∧
          sl'.set_seconds = sl.seconds := by
  obtain ⟨hlt, hsl⟩ := slot_read_some_iff.mp hv
  have h1 : ∃ calls1,
        countdown_face_loop host1 { event_type := EVENT_LIGHT_BUTTON_UP, subsecond := subsecond1 }
          settings state = some ({ state with selection := 1 }, calls1) := by
    obtain ⟨buf, hd⟩ := @draw_of_setting { state with selection := 1 } _ hv hm subsecond1
    refine ⟨[watch_clear_indicator_bell, watch_display_string buf 0], ?_⟩
    simp only [countdown_face_loop, hv, hm, hsel, bits]
    simpa using hd
  have h2 : ∃ calls2,
        countdown_face_loop host2 { event_type := EVENT_LIGHT_BUTTON_UP, subsecond := subsecond2 }
          settings { state with selection := 1 } = some ({ state with selection := 2 }, calls2) := by
    obtain ⟨buf, hd⟩ := @draw_of_setting { state with selection := 2 } _ hv hm subsecond2
    refine ⟨[watch_clear_indicator_bell, watch_display_string buf 0], ?_⟩
    simp only [countdown_face_loop, hv, hm, bits]
    simpa using hd
  have h3 : ∃ calls3,
        countdown_face_loop host3 { event_type := EVENT_LIGHT_BUTTON_UP, subsecond := subsecond3 }
          settings { state with selection := 2 } =
        some ({ state with
            selection := 0
            slots := Function.update state.slots ⟨state.current_slot_idx, hlt⟩
              { sl with
                mode := cd_reset, set_hours := sl.hours, set_minutes := sl.minutes
                set_seconds := sl.seconds } }, calls3) := by
    have hd := @draw_of_reset_or_paused { state with
            selection := 0
            slots := Function.update state.slots ⟨state.current_slot_idx, hlt⟩
              { sl with
                mode := cd_reset, set_hours := sl.hours, set_minutes := sl.minutes
                set_seconds := sl.seconds } } _ (slot_read_update_same _ hlt _) (Or.inl rfl)
          subsecond3
    refine ⟨(movement_request_tick_frequency 1 :: button_beep settings) ++
      [watch_clear_indicator_bell, watch_display_string
        (sprintf_cd (state.current_slot_idx + 1) sl.hours sl.minutes sl.seconds) 0], ?_⟩
    simp only [countdown_face_loop, hv, hm, bits, store_countdown, update_current_slot,
      slot_read, slot_write, hlt, dite_true, Function.update_same, Function.update_idem, hsl]
    simp [and_then, hd]
  obtain ⟨c1, h1⟩ := h1
  obtain ⟨c2, h2⟩ := h2
  obtain ⟨c3, h3⟩ := h3
  have hread : slot_read
      (Function.update state.slots ⟨state.current_slot_idx, hlt⟩
        { sl with
          mode := cd_reset, set_hours := sl.hours, set_minutes := sl.minutes
          set_seconds := sl.seconds }) state.current_slot_idx = some { sl with
          mode := cd_reset, set_hours := sl.hours, set_minutes := sl.minutes
          set_seconds := sl.seconds } := slot_read_update_same _ hlt _
  refine ⟨⟨c1, h1⟩, ⟨c2, h2⟩, ⟨_, c3, _, h3, rfl, rfl, hread, rfl, ?_⟩,
    ⟨{ state with
        selection := 0
        slots := Function.update state.slots ⟨state.current_slot_idx, hlt⟩
          { sl with
            mode := cd_reset, set_hours := sl.hours, set_minutes := sl.minutes
            set_seconds := sl.seconds } }, c1 ++ (c2 ++ (c3 ++ [])), ?_, rfl, _, hread,
      rfl, rfl, rfl, rfl, rfl, rfl, rfl⟩⟩
  · intro j hj
    exact Function.update_noteq (fun h => hj (congrArg Fin.val h)) _ _
  · simp only [countdown_face_loop_seq, h1, h2, h3, and_then]

/-- C8, instance: slot 0 is being set, its pending duration is (5, 30, 45) and nothing is
saved yet. -/
theorem light_button_cycles_then_commits_witness :
    ∃ final calls sl',
      countdown_face_loop_seq demo_settings
          [(demo_host 1000 false, { event_type := EVENT_LIGHT_BUTTON_UP, subsecond := 0 }),
           (demo_host 1000 false, { event_type := EVENT_LIGHT_BUTTON_UP, subsecond := 1 }),
           (demo_host 1000 false, { event_type := EVENT_LIGHT_BUTTON_UP, subsecond := 2 })]
          (demo_state (demo_slot cd_setting 0 5 30 45 0 0 0)) = some (final, calls) ∧
        final.selection = 0 ∧
        slot_read final.slots final.current_slot_idx = some sl' ∧
        sl'.mode = cd_reset ∧ sl'.hours = 5 ∧ sl'.minutes = 30 ∧ sl'.seconds = 45 ∧
        sl'.set_hours = 5 ∧ sl'.set_minutes = 30 ∧ sl'.set_seconds = 45 := by
  obtain ⟨-, -, -, final, calls, h, hsel, sl', h'⟩ :=
    light_button_cycles_then_commits (demo_host 1000 false) (demo_host 1000 false)
      (demo_host 1000 false) demo_settings (demo_state (demo_slot cd_setting 0 5 30 45 0 0 0))
      (demo_slot cd_setting 0 5 30 45 0 0 0) 0 1 2 (by decide) (by decide) (by decide)
  exact ⟨final, calls, sl', h, hsel, h'⟩

/-- C9. When the viewed slot is in Setting mode, the handler of `EVENT_LIGHT_LONG_PRESS`
makes no host call and rewrites only pending fields of the viewed slot: all three become 0
when `selection = 0`, minutes and seconds when `selection = 1`, seconds when
`selection = 2`, and for any other `selection` the state is returned as it was. Mode,
`selection` and the saved duration are never changed. -/
theorem light_long_press_zeroes_from_field (host : movement_host)
    (settings : movement_settings_t) (state : countdown_state_t) (sl : countdown_slot_state_t)
    (subsecond : Nat)
    (hv : slot_read state.slots state.current_slot_idx = some sl)
    (hm : sl.mode = cd_setting) :
    ∃ sl',
      countdown_face_loop host { event_type := EVENT_LIGHT_LONG_PRESS, subsecond := subsecond }
          settings state =
        some ({ state with
          slots := Function.update state.slots
            ⟨state.current_slot_idx, (slot_read_some_iff.mp hv).1⟩ sl' }, []) ∧
      (state.selection = 0 → sl' = { sl with hours := 0, minutes := 0, seconds := 0 }) ∧
      (state.selection = 1 → sl' = { sl with minutes := 0, seconds := 0 }) ∧
      (state.selection = 2 → sl' = { sl with seconds := 0 }) ∧
      (2 < state.selection → sl' = sl ∧
        countdown_face_loop host { event_type := EVENT_LIGHT_LONG_PRESS, subsecond := subsecond }
          settings state = some (state, [])) ∧
      sl'.mode = cd_setting ∧ sl'.set_hours = sl.set_hours ∧
      sl'.set_minutes = sl.set_minutes ∧ sl'.set_seconds = sl.set_seconds ∧
      sl'.target_ts = sl.target_ts := by
  obtain ⟨hlt, hsl⟩ := slot_read_some_iff.mp hv
  simp only [countdown_face_loop, hv, hm]
  split
  · rename_i h0
    refine ⟨{ sl with hours := 0, minutes := 0, seconds := 0 }, ?_, fun _ => by rw [hm], ?_, ?_, ?_,
      hm, rfl, rfl, rfl, rfl⟩
    · rw [update_current_slot_of_read hv]
    · intro h; omega
    · intro h; omega
    · intro h; omega
  · rename_i h1
    refine ⟨{ sl with minutes := 0, seconds := 0 }, ?_, ?_, fun _ => by rw [hm], ?_, ?_,
      hm, rfl, rfl, rfl, rfl⟩
    · rw [update_current_slot_of_read hv]
    · intro h; omega
    · intro h; omega
    · intro h; omega
  · rename_i h2
    refine ⟨{ sl with seconds := 0 }, ?_, ?_, ?_, fun _ => by rw [hm], ?_, hm, rfl, rfl, rfl, rfl⟩
    · rw [update_current_slot_of_read hv]
    · intro h; omega
    · intro h; omega
    · intro h; omega
  · rename_i n0 n1 n2
    have hu : Function.update state.slots ⟨state.current_slot_idx, hlt⟩ sl = state.slots := by
      subst hsl
      exact Function.update_eq_self _ _
    refine ⟨sl, ?_, ?_, ?_, ?_, fun _ => ⟨rfl, rfl⟩, hm, rfl, rfl, rfl, rfl⟩
    · rw [hu]
    · intro h; exact absurd h n0
    · intro h; exact absurd h n1
    · intro h; exact absurd h n2

/-- C9, instance: (5, 30, 45) zeroed at `selection = 1` becomes (5, 0, 0). -/
theorem light_long_press_zeroes_from_field_witness :
    ∃ state',
      countdown_face_loop (demo_host 1000 false)
          { event_type := EVENT_LIGHT_LONG_PRESS, subsecond := 0 } demo_settings
          { demo_state (demo_slot cd_setting 0 5 30 45 1 2 3) with selection := 1 } =
        some (state', []) ∧
      slot_read state'.slots state'.current_slot_idx =
        some (demo_slot cd_setting 0 5 0 0 1 2 3) := by
  obtain ⟨sl', h, -, h1, -⟩ :=
    light_long_press_zeroes_from_field (demo_host 1000 false) demo_settings
      { demo_state (demo_slot cd_setting 0 5 30 45 1 2 3) with selection := 1 }
      (demo_slot cd_setting 0 5 30 45 1 2 3) 0 (by decide) (by decide)
  exact ⟨_, h, (slot_read_update_same _ _ _).trans (congrArg some (h1 rfl))⟩

/-- C10. When the viewed slot is in Setting mode, the handler of `EVENT_ALARM_BUTTON_UP`
rewrites one pending field of the viewed slot and then draws: hours become
`(hours + 1) mod 24` when `selection = 0`, minutes `(minutes + 1) mod 60` when
`selection = 1`, seconds `(seconds + 1) mod 60` when `selection = 2`; for any other
`selection` the state is returned as it was. The other fields of the slot, the other slots,
`selection` and the rest of the state are not changed. -/
theorem alarm_button_increments_field (host : movement_host)
    (settings : movement_settings_t) (state : countdown_state_t) (sl : countdown_slot_state_t)
    (subsecond : Nat)
    (hv : slot_read state.slots state.current_slot_idx = some sl)
    (hm : sl.mode = cd_setting) :
    ∃ sl' buf,
      countdown_face_loop host { event_type := EVENT_ALARM_BUTTON_UP, subsecond := subsecond }
          settings state =
        some ({ state with
          slots := Function.update state.slots
            ⟨state.current_slot_idx, (slot_read_some_iff.mp hv).1⟩ sl' },
          [watch_clear_indicator_bell, watch_display_string buf 0]) ∧
      (state.selection = 0 → sl' = { sl with hours := (sl.hours + 1) % 24 }) ∧
      (state.selection = 1 → sl' = { sl with minutes := (sl.minutes + 1) % 60 }) ∧
      (state.selection = 2 → sl' = { sl with seconds := (sl.seconds + 1) % 60 }) ∧
      (2 < state.selection → sl' = sl ∧
        countdown_face_loop host { event_type := EVENT_ALARM_BUTTON_UP, subsecond := subsecond }
          settings state = some (state, [watch_clear_indicator_bell, watch_display_string buf 0]))
      := by
  obtain ⟨hlt, hsl⟩ := slot_read_some_iff.mp hv
  have hu : Function.update state.slots ⟨state.current_slot_idx, hlt⟩ sl = state.slots := by
    subst hsl
    exact Function.update_eq_self _ _
  -- what `settings_increment` writes
  have hinc : ∃ sl', settings_increment state =
        some { state with
          slots := Function.update state.slots ⟨state.current_slot_idx, hlt⟩ sl' } ∧
      sl'.mode = cd_setting ∧
      (state.selection = 0 → sl' = { sl with hours := (sl.hours + 1) % 24 }) ∧
      (state.selection = 1 → sl' = { sl with minutes := (sl.minutes + 1) % 60 }) ∧
      (state.selection = 2 → sl' = { sl with seconds := (sl.seconds + 1) % 60 }) ∧
      (2 < state.selection → sl' = sl) := by
    unfold settings_increment
    split
    · refine ⟨_, update_current_slot_of_read hv _, hm, fun _ => by rw [bits_5_mod_24], ?_, ?_, ?_⟩
        <;> intro h <;> omega
    · refine ⟨_, update_current_slot_of_read hv _, hm, ?_, fun _ => by rw [bits_6_mod_60], ?_, ?_⟩
        <;> intro h <;> omega
    · refine ⟨_, update_current_slot_of_read hv _, hm, ?_, ?_, fun _ => by rw [bits_6_mod_60], ?_⟩
        <;> intro h <;> omega
    · rename_i n0 n1 n2
      refine ⟨sl, by rw [hu], hm, fun h => absurd h n0, fun h => absurd h n1,
        fun h => absurd h n2, fun _ => rfl⟩
  obtain ⟨sl', hinc, hm', h0, h1, h2, h3⟩ := hinc
  obtain ⟨buf, hd⟩ := @draw_of_setting { state with
      slots := Function.update state.slots ⟨state.current_slot_idx, hlt⟩ sl' } _
    (slot_read_update_same _ hlt _) hm' subsecond
  have hloop : countdown_face_loop host
      { event_type := EVENT_ALARM_BUTTON_UP, subsecond := subsecond } settings state =
        some ({ state with
          slots := Function.update state.slots ⟨state.current_slot_idx, hlt⟩ sl' },
          [watch_clear_indicator_bell, watch_display_string buf 0]) := by
    simp only [countdown_face_loop, hv, hm, hinc, and_then, hd, List.nil_append]
  refine ⟨sl', buf, hloop, h0, h1, h2, fun h => ⟨h3 h, ?_⟩⟩
  rw [hloop, h3 h, hu]

/-- C10, instance: incrementing the hours of (23, 59, 59) gives (0, 59, 59). -/
theorem alarm_button_increments_field_witness :
    ∃ state' calls,
      countdown_face_loop (demo_host 1000 false)
          { event_type := EVENT_ALARM_BUTTON_UP, subsecond := 0 } demo_settings
          (demo_state (demo_slot cd_setting 0 23 59 59 1 2 3)) = some (state', calls) ∧
      slot_read state'.slots state'.current_slot_idx =
        some (demo_slot cd_setting 0 0 59 59 1 2 3) := by
  obtain ⟨sl', buf, h, h0, -⟩ :=
    alarm_button_increments_field (demo_host 1000 false) demo_settings
      (demo_state (demo_slot cd_setting 0 23 59 59 1 2 3))
      (demo_slot cd_setting 0 23 59 59 1 2 3) 0 (by decide) (by decide)
  exact ⟨_, _, h, (slot_read_update_same _ _ _).trans (congrArg some (h0 rfl))⟩

/-- C11, failing input. From the state after setup, with the clock of the host at 1000
throughout: slot 0 is set to one second and started (target 1001); slot 1 is viewed and
put in Setting mode; two ticks arrive; slot 1 is committed and the cursor is moved on to
slot 0. Slot 0 is then Running with `now_ts = 1002` past its target, and `draw` has written
63 into its pending seconds. -/
theorem pending_seconds_reach_63 :
    (countdown_face_loop_seq demo_settings
        (demo_events (demo_host 1000 false)
          (demo_set_one_second_and_start ++
            [EVENT_LIGHT_BUTTON_UP, EVENT_LIGHT_LONG_PRESS, EVENT_TICK, EVENT_TICK,
              EVENT_LIGHT_BUTTON_UP, EVENT_LIGHT_BUTTON_UP, EVENT_LIGHT_BUTTON_UP,
              EVENT_LIGHT_BUTTON_UP, EVENT_LIGHT_BUTTON_UP, EVENT_LIGHT_BUTTON_UP,
              EVENT_LIGHT_BUTTON_UP]))
        (setup_state 0)).map
        (fun r => (r.1.current_slot_idx, r.1.now_ts, r.1.slots 0)) =
      some (0, 1002, demo_slot cd_running 1001 0 0 63 0 0 1) := by
  decide

/-- C12, failing input. In the state after setup `next_alarm_slot_idx` is
`COUNTDOWN_SLOTS`, which is no index of `slots`, and the handler of
`EVENT_BACKGROUND_TASK` accesses `slots` at that index. -/
theorem background_task_after_setup_leaves_array :
    countdown_face_setup 0 none = some (setup_state 0) ∧
      (setup_state 0).next_alarm_slot_idx = COUNTDOWN_SLOTS ∧
      slot_read (setup_state 0).slots (setup_state 0).next_alarm_slot_idx = none ∧
      (countdown_face_loop (demo_host 1000 false)
        { event_type := EVENT_BACKGROUND_TASK, subsecond := 0 } demo_settings
        (setup_state 0)).isNone = true :=
  ⟨countdown_face_setup_none 0, rfl, by decide, by decide⟩

/-- C13, failing input. From the state after setup: slot 0 is set to one second and
started at 1000; slot 1 is viewed and put in Setting mode; at 1001 the background task
fires. The viewed slot is then slot 0, in Reset mode, and slot 1 is still in Setting
mode. -/
theorem background_task_leaves_other_slot_in_setting :
    (countdown_face_loop_seq demo_settings
        (demo_events (demo_host 1000 false)
            (demo_set_one_second_and_start ++ [EVENT_LIGHT_BUTTON_UP, EVENT_LIGHT_LONG_PRESS]) ++
          demo_events (demo_host 1001 false) [EVENT_BACKGROUND_TASK])
        (setup_state 0)).map
        (fun r => (r.1.current_slot_idx, (r.1.slots 0).mode, (r.1.slots 1).mode)) =
      some (0, cd_reset, cd_setting) := by
  decide

/-- C15, failing input. From the state after setup: slot 0 is set to one second and
started at 1000, which schedules the background task at 1001; a long press of the light
button then puts the Running slot in Setting mode. No slot is Running any more, and the
only wake request of the whole trace is the schedule at 1001. -/
theorem long_press_on_running_keeps_wake_scheduled :
    (countdown_face_loop_seq demo_settings
        (demo_events (demo_host 1000 false)
          (demo_set_one_second_and_start ++ [EVENT_LIGHT_LONG_PRESS]))
        (setup_state 0)).map
        (fun r => ((r.1.slots 0).mode, any_slot_running r.1, r.1.next_alarm_slot_idx,
          wake_requests r.2)) =
      some (cd_setting, false, 0, [movement_schedule_background_task_for_face 0 1001]) ∧
    (countdown_face_loop_seq demo_settings
        (demo_events (demo_host 1000 false) demo_set_one_second_and_start)
        (setup_state 0)).map
        (fun r => ((r.1.slots 0).mode, (r.1.slots 0).target_ts, wake_requests r.2)) =
      some (cd_running, 1001, [movement_schedule_background_task_for_face 0 1001]) := by
  decide

/-- C20, failing input. From the state after setup: slot 0 is put in Setting mode, a long
press of the alarm button starts the quick ticks, and three presses of the light button
commit the slot. The flag `quick_ticks_running` is then still set while the viewed slot is
in Reset mode with pending hours 0, and a tick with the alarm button held makes the
pending hours of that Reset slot 1. -/
theorem quick_ticks_survive_commit :
    (countdown_face_loop_seq demo_settings
        (demo_events (demo_host 1000 true)
          [EVENT_LIGHT_LONG_PRESS, EVENT_ALARM_LONG_PRESS, EVENT_LIGHT_BUTTON_UP,
            EVENT_LIGHT_BUTTON_UP, EVENT_LIGHT_BUTTON_UP])
        (setup_state 0)).map
        (fun r => (r.1.quick_ticks_running, r.1.current_slot_idx, (r.1.slots 0).mode,
          (r.1.slots 0).hours)) =
      some (true, 0, cd_reset, 0) ∧
    (countdown_face_loop_seq demo_settings
        (demo_events (demo_host 1000 true)
          [EVENT_LIGHT_LONG_PRESS, EVENT_ALARM_LONG_PRESS, EVENT_LIGHT_BUTTON_UP,
            EVENT_LIGHT_BUTTON_UP, EVENT_LIGHT_BUTTON_UP, EVENT_TICK])
        (setup_state 0)).map
        (fun r => (r.1.quick_ticks_running, r.1.current_slot_idx, (r.1.slots 0).mode,
          (r.1.slots 0).hours)) =
      some (true, 0, cd_reset, 1) := by
  decide

/-- C17. When the viewed slot is in Setting mode, `countdown_face_resign` sets
`selection` to 0 and, in the viewed slot, the mode to Reset and the saved duration to the
pending duration; the pending duration, the target, the other slots and the rest of the
state stay as they were. When the viewed slot is in any other mode, it returns the state
unchanged. -/
theorem resign_commits_setting (state : countdown_state_t) (sl : countdown_slot_state_t)
    (hv : slot_read state.slots state.current_slot_idx = some sl) :
    (sl.mode = cd_setting →
      countdown_face_resign state =
        some { state with
          selection := 0
          slots := Function.update state.slots
            ⟨state.current_slot_idx, (slot_read_some_iff.mp hv).1⟩
            { sl with
              mode := cd_reset, set_hours := sl.hours, set_minutes := sl.minutes
              set_seconds := sl.seconds } }) ∧
      (sl.mode ≠ cd_setting → countdown_face_resign state = some state) := by
  obtain ⟨hlt, hsl⟩ := slot_read_some_iff.mp hv
  constructor
  · intro hm
    simp only [countdown_face_resign, hv, hm, if_true, store_countdown, update_current_slot,
      slot_read, slot_write, hlt, dite_true, Function.update_same, Function.update_idem, hsl]
  · intro hm
    simp only [countdown_face_resign, hv, hm, if_false]

/-- C17, instance: slot 0 is being set with pending duration (5, 30, 45) and saved
duration (1, 2, 3), `selection` is 2. -/
theorem resign_commits_setting_witness :
    ∃ state',
      countdown_face_resign
          { demo_state (demo_slot cd_setting 0 5 30 45 1 2 3) with selection := 2 } =
        some state' ∧
      state'.selection = 0 ∧
      slot_read state'.slots state'.current_slot_idx =
        some (demo_slot cd_reset 0 5 30 45 5 30 45) := by
  have h := (resign_commits_setting
    { demo_state (demo_slot cd_setting 0 5 30 45 1 2 3) with selection := 2 }
    (demo_slot cd_setting 0 5 30 45 1 2 3) (by decide)).1 (by decide)
  exact ⟨_, h, rfl, slot_read_update_same _ _ _⟩

/-- C19. The handler of `EVENT_TICK` returns a state whose `now_ts` is `now_ts + 1`,
taken in 32 bits as `now_ts++` on a `uint32_t` is, when some slot is Running, viewed or
not and however many are, and whose `now_ts` is the old one when no slot is Running. -/
theorem tick_advances_now_once (host : movement_host) (settings : movement_settings_t)
    (state : countdown_state_t) (sl : countdown_slot_state_t) (subsecond : Nat)
    (hv : slot_read state.slots state.current_slot_idx = some sl) :
    ∃ state' calls,
      countdown_face_loop host { event_type := EVENT_TICK, subsecond := subsecond } settings
          state = some (state', calls) ∧
        (((∃ j, (state.slots j).mode = cd_running) →
            state'.now_ts = u32 (state.now_ts + 1) ∧
              (state.now_ts < UINT32_MAX → state'.now_ts = state.now_ts + 1)) ∧
          ((∀ j, (state.slots j).mode ≠ cd_running) → state'.now_ts = state.now_ts)) := by
  obtain ⟨hlt, hsl⟩ := slot_read_some_iff.mp hv
  simp only [countdown_face_loop]
  refine and_then_spec
    (P := fun st1 => st1.now_ts = state.now_ts ∧
      (∀ j, (st1.slots j).mode = (state.slots j).mode) ∧
      ∃ sl1, slot_read st1.slots st1.current_slot_idx = some sl1) ?_ ?_
  · -- the part of the handler before the loop over the slots
    by_cases hq : state.quick_ticks_running = true
    · by_cases hp : host.alarm_pin_level = true
      · obtain ⟨sl', hinc, hm', -⟩ := settings_increment_of_read hv
        refine ⟨{ state with
            slots := Function.update state.slots ⟨state.current_slot_idx, hlt⟩ sl' }, [], ?_,
          rfl, ?_, sl', slot_read_update_same _ _ _⟩
        · simp only [hq, hp, if_true, hinc]
        · intro j
          exact update_mode_frame _ _ _ (hm'.trans (congrArg _ hsl.symm)) j
      · by_cases hs : sl.mode = cd_setting
        · refine ⟨{ state with quick_ticks_running := false },
            [movement_request_tick_frequency 4], ?_, rfl, fun _ => rfl, sl, hv⟩
          simp [hq, hp, abort_quick_ticks, hv, hs]
        · refine ⟨{ state with quick_ticks_running := false },
            [movement_request_tick_frequency 1], ?_, rfl, fun _ => rfl, sl, hv⟩
          simp [hq, hp, abort_quick_ticks, hv, hs]
    · exact ⟨state, [], by simp [hq], rfl, fun _ => rfl, sl, hv⟩
  · rintro st1 ⟨hnow, hmodes, sl1, hv1⟩
    have hany : any_slot_running st1 = any_slot_running state := any_slot_running_congr hmodes
    by_cases hr : ∃ j, (state.slots j).mode = cd_running
    · have ht : any_slot_running st1 = true := by
        rw [hany]; exact (any_slot_running_iff state).mpr hr
      obtain ⟨sl2, c2, hd, -⟩ := @draw_frame { st1 with now_ts := u32 (st1.now_ts + 1) } sl1
        hv1 subsecond
      refine ⟨_, c2, by simp only [ht, if_true]; exact hd, fun _ => ⟨?_, fun hmax => ?_⟩,
        fun hn => absurd hr (by simpa using hn)⟩
      · show u32 (st1.now_ts + 1) = _
        rw [hnow]
      · show u32 (st1.now_ts + 1) = _
        rw [hnow]
        unfold u32
        have : UINT32_MAX = 4294967295 := rfl
        omega
    · have hf : any_slot_running st1 = false := by
        rw [hany, Bool.eq_false_iff]
        exact fun h => hr ((any_slot_running_iff state).mp h)
      obtain ⟨sl2, c2, hd, -⟩ := draw_frame hv1 subsecond
      refine ⟨{ st1 with
          slots := Function.update st1.slots
            ⟨st1.current_slot_idx, (slot_read_some_iff.mp hv1).1⟩ sl2 }, c2,
        by simp only [hf]; exact hd, fun h => absurd h hr, fun _ => hnow⟩

/-- C19, instance: slots 1 and 3 are Running, slot 0 is viewed, `now_ts` is 0. -/
theorem tick_advances_now_once_witness :
    ∃ state' calls,
      countdown_face_loop (demo_host 1000 false) { event_type := EVENT_TICK, subsecond := 0 }
          demo_settings (demo_state_two 1 3 2000 1500) = some (state', calls) ∧
        state'.now_ts = 1 := by
  obtain ⟨st, c, h, h1, -⟩ :=
    tick_advances_now_once (demo_host 1000 false) demo_settings (demo_state_two 1 3 2000 1500)
      (demo_slot cd_reset 0 0 0 0 0 0 0) 0 (by decide)
  exact ⟨st, c, h, (h1 ⟨1, by decide⟩).2 (by decide)⟩

/-- C14 (amended). When the viewed slot is in Reset mode, the handler of
`EVENT_LIGHT_LONG_PRESS` puts it in Setting mode and changes nothing else, `selection`
included; its host calls ask for 4 ticks per second and beep. When the viewed slot is
Paused, the handler instead restores it: Reset mode with the pending duration loaded from
the saved one. -/
theorem light_long_press_enters_setting (host : movement_host)
    (settings : movement_settings_t) (state : countdown_state_t) (sl : countdown_slot_state_t)
    (subsecond : Nat)
    (hv : slot_read state.slots state.current_slot_idx = some sl) :
    (sl.mode = cd_reset →
      countdown_face_loop host { event_type := EVENT_LIGHT_LONG_PRESS, subsecond := subsecond }
          settings state =
        some ({ state with
            slots := Function.update state.slots
              ⟨state.current_slot_idx, (slot_read_some_iff.mp hv).1⟩
              { sl with mode := cd_setting } },
          movement_request_tick_frequency 4 :: button_beep settings)) ∧
      (sl.mode = cd_paused →
        ∃ state' calls,
          countdown_face_loop host
              { event_type := EVENT_LIGHT_LONG_PRESS, subsecond := subsecond } settings state =
            some (state', calls) ∧
          state'.current_slot_idx = state.current_slot_idx ∧
          state'.selection = state.selection ∧
          slot_read state'.slots state'.current_slot_idx =
            some { sl with
              mode := cd_reset, hours := sl.set_hours, minutes := sl.set_minutes
              seconds := sl.set_seconds }) := by
  constructor
  · intro hm
    simp only [countdown_face_loop, hv, hm]
    rw [update_current_slot_of_read hv]
  · intro hm
    simp only [countdown_face_loop, hv, hm]
    refine and_then_spec
      (P := fun st => st.current_slot_idx = state.current_slot_idx ∧
        st.selection = state.selection ∧
        slot_read st.slots st.current_slot_idx =
          some { sl with
            mode := cd_reset, hours := sl.set_hours, minutes := sl.set_minutes
            seconds := sl.set_seconds })
      ⟨_, _, reset_of_read host settings hv, rfl, rfl, slot_read_update_same _ _ _⟩ ?_
    intro st hst
    exact ⟨st, _, rfl, hst⟩

/-- C14, instance: the state after setup, with `selection = 0`. -/
theorem light_long_press_enters_setting_witness :
    ∃ state' calls,
      countdown_face_loop (demo_host 1000 false)
          { event_type := EVENT_LIGHT_LONG_PRESS, subsecond := 0 } demo_settings
          (setup_state 0) = some (state', calls) ∧
      state'.selection = 0 ∧
      slot_read state'.slots state'.current_slot_idx =
        some (demo_slot cd_setting 0 0 0 0 0 0 0) := by
  have h := (light_long_press_enters_setting (demo_host 1000 false) demo_settings
    (setup_state 0) (demo_slot cd_reset 0 0 0 0 0 0 0) 0 (by decide)).1 (by decide)
  exact ⟨_, _, h, rfl, slot_read_update_same _ _ _⟩

/-- C14, counterexample: a Paused slot with remaining (0, 0, 3) and saved (0, 0, 5) is
left in Reset mode, not in Setting mode, with pending (0, 0, 5); and a Reset slot in a
state with `selection = 2` enters Setting mode with `selection` still 2. -/
theorem light_long_press_enters_setting_counterexample :
    (countdown_face_loop (demo_host 1000 false)
        { event_type := EVENT_LIGHT_LONG_PRESS, subsecond := 0 } demo_settings
        (demo_state (demo_slot cd_paused 1005 0 0 3 0 0 5))).map
        (fun r => (r.1.selection, r.1.slots 0)) =
      some (0, demo_slot cd_reset 1005 0 0 5 0 0 5) ∧
    (countdown_face_loop (demo_host 1000 false)
        { event_type := EVENT_LIGHT_LONG_PRESS, subsecond := 0 } demo_settings
        { demo_state (demo_slot cd_reset 0 0 0 5 0 0 5) with selection := 2 }).map
        (fun r => (r.1.selection, r.1.slots 0)) =
      some (2, demo_slot cd_setting 0 0 0 5 0 0 5) := by
  decide

/-- C18 (amended). A press of the light button while the viewed slot is not in Setting mode
moves the cursor to `(current_slot_idx + 1) mod 5` and keeps every slot's mode, target and
saved duration; the only pending duration it can change is that of the newly viewed slot
when it is Running, which `draw` refreshes from `target_ts - now_ts`. While the viewed slot
is in Setting mode the press never moves the cursor. When no slot is in Setting mode, five
presses bring the cursor back to where it was. -/
theorem light_button_cycles_slots (settings : movement_settings_t)
    (state : countdown_state_t) (sl : countdown_slot_state_t)
    (host : movement_host) (subsecond : Nat)
    (presses : List (movement_host × movement_event_t))
    (hv : slot_read state.slots state.current_slot_idx = some sl)
    (hpresses : ∀ e ∈ presses, e.2.event_type = EVENT_LIGHT_BUTTON_UP)
    (hfive : presses.length = COUNTDOWN_SLOTS) :
    (sl.mode ≠ cd_setting →
      ∃ state' calls,
        countdown_face_loop host { event_type := EVENT_LIGHT_BUTTON_UP, subsecond := subsecond }
            settings state = some (state', calls) ∧
          (state'.current_slot_idx = (state.current_slot_idx + 1) % COUNTDOWN_SLOTS ∧
            same_but_cursor_and_pending state state' ∧
            (∀ j : Fin COUNTDOWN_SLOTS,
              j.val ≠ (state.current_slot_idx + 1) % COUNTDOWN_SLOTS ∨
                  (state.slots j).mode ≠ cd_running →
                state'.slots j = state.slots j) ∧
            ∀ j : Fin COUNTDOWN_SLOTS,
              j.val = (state.current_slot_idx + 1) % COUNTDOWN_SLOTS →
              (state.slots j).mode = cd_running →
                ((state'.slots j).hours, (state'.slots j).minutes, (state'.slots j).seconds) =
                  remaining_fields (state.slots j).target_ts state.now_ts)) ∧
      (sl.mode = cd_setting →
        ∃ state' calls,
          countdown_face_loop host { event_type := EVENT_LIGHT_BUTTON_UP, subsecond := subsecond }
              settings state = some (state', calls) ∧
            state'.current_slot_idx = state.current_slot_idx) ∧
      ((∀ j, (state.slots j).mode ≠ cd_setting) →
        ∃ final calls, countdown_face_loop_seq settings presses state = some (final, calls) ∧
          (final.current_slot_idx = state.current_slot_idx ∧
            same_but_cursor_and_pending state final)) := by
  obtain ⟨hlt, hsl⟩ := slot_read_some_iff.mp hv
  refine ⟨fun hm => light_button_next_slot host settings subsecond hv hm, fun hm => ?_,
    fun hno => ?_⟩
  · by_cases hw : bits 2 (state.selection + 1) ≥ CD_SELECTIONS
    · have hd := @draw_of_reset_or_paused { state with
            selection := 0
            slots := Function.update state.slots ⟨state.current_slot_idx, hlt⟩
              { sl with
                mode := cd_reset, set_hours := sl.hours, set_minutes := sl.minutes
                set_seconds := sl.seconds } } _ (slot_read_update_same _ hlt _) (Or.inl rfl)
          subsecond
      refine ⟨{ state with
            selection := 0
            slots := Function.update state.slots ⟨state.current_slot_idx, hlt⟩
              { sl with
                mode := cd_reset, set_hours := sl.hours, set_minutes := sl.minutes
                set_seconds := sl.seconds } },
        (movement_request_tick_frequency 1 :: button_beep settings) ++
          [watch_clear_indicator_bell, watch_display_string
            (sprintf_cd (state.current_slot_idx + 1) sl.hours sl.minutes sl.seconds) 0], ?_, rfl⟩
      simp only [countdown_face_loop, hv, hm, hw, if_true, store_countdown, update_current_slot,
        slot_read, slot_write, hlt, dite_true, Function.update_same, Function.update_idem, hsl]
      simp [and_then, hd]
    · obtain ⟨buf, hd⟩ := @draw_of_setting { state with selection := bits 2 (state.selection + 1) }
        _ hv hm subsecond
      refine ⟨{ state with selection := bits 2 (state.selection + 1) },
        [watch_clear_indicator_bell, watch_display_string buf 0], ?_, rfl⟩
      simp only [countdown_face_loop, hv, hm, hw, if_true, if_false]
      exact hd
  · obtain ⟨final, calls, h, hi, hf⟩ := light_button_presses settings presses hpresses state hlt hno
    refine ⟨final, calls, h, ?_, hf⟩
    rw [hi, hfive]
    show (_ + 5) % 5 = _
    have : state.current_slot_idx < 5 := hlt
    omega

/-- C18, instance: slot 0 is viewed, slot 1 runs towards 1005, `now_ts` is 1003; five
presses. -/
theorem light_button_cycles_slots_witness :
    ∃ final calls,
      countdown_face_loop_seq demo_settings
          (demo_events (demo_host 1003 false)
            [EVENT_LIGHT_BUTTON_UP, EVENT_LIGHT_BUTTON_UP, EVENT_LIGHT_BUTTON_UP,
              EVENT_LIGHT_BUTTON_UP, EVENT_LIGHT_BUTTON_UP])
          { setup_state 0 with
            now_ts := 1003
            slots := Function.update (setup_state 0).slots 1
              (demo_slot cd_running 1005 0 0 5 0 0 5) } = some (final, calls) ∧
        final.current_slot_idx = 0 := by
  obtain ⟨final, calls, h, hi, -⟩ :=
    (light_button_cycles_slots demo_settings
      { setup_state 0 with
        now_ts := 1003
        slots := Function.update (setup_state 0).slots 1
          (demo_slot cd_running 1005 0 0 5 0 0 5) }
      (demo_slot cd_reset 0 0 0 0 0 0 0) (demo_host 1003 false) 0
      (demo_events (demo_host 1003 false)
        [EVENT_LIGHT_BUTTON_UP, EVENT_LIGHT_BUTTON_UP, EVENT_LIGHT_BUTTON_UP,
          EVENT_LIGHT_BUTTON_UP, EVENT_LIGHT_BUTTON_UP])
      (by decide) (by decide) (by decide)).2.2 (by decide)
  exact ⟨final, calls, h, hi⟩

/-- C18, counterexample. Slot 0 is viewed and in Reset mode, `now_ts` is 1003. With slot 1
Running towards 1005 and holding the pending duration (0, 0, 5), one press makes slot 1
the viewed slot and its pending duration (0, 0, 2). With slot 1 in Setting mode instead,
five presses leave the cursor on slot 2. -/
theorem light_button_cycles_slots_counterexample :
    (countdown_face_loop (demo_host 1003 false)
        { event_type := EVENT_LIGHT_BUTTON_UP, subsecond := 0 } demo_settings
        { setup_state 0 with
          now_ts := 1003
          slots := Function.update (setup_state 0).slots 1
            (demo_slot cd_running 1005 0 0 5 0 0 5) }).map
        (fun r => (r.1.current_slot_idx, r.1.slots 1)) =
      some (1, demo_slot cd_running 1005 0 0 2 0 0 5) ∧
    (countdown_face_loop_seq demo_settings
        (demo_events (demo_host 1003 false)
          [EVENT_LIGHT_BUTTON_UP, EVENT_LIGHT_BUTTON_UP, EVENT_LIGHT_BUTTON_UP,
            EVENT_LIGHT_BUTTON_UP, EVENT_LIGHT_BUTTON_UP])
        { setup_state 0 with
          now_ts := 1003
          slots := Function.update (setup_state 0).slots 1
            (demo_slot cd_setting 0 0 0 5 0 0 0) }).map
        (fun r => r.1.current_slot_idx) = some 2 := by
  decide

/-- C16. In a state reached through the event handler whose viewed slot is Running, the
pending fields of that slot are the ones `draw` computes from `target_ts - now_ts` (for
`now_ts ≤ target_ts` less than 32 hours apart: `delta / 3600`, `(delta / 60) mod 60`,
`delta mod 60`). The handler of `EVENT_ALARM_BUTTON_UP` then leaves the slot Paused with
those pending fields, `now_ts` and the other slots unchanged, and recomputes the wake
with the slot out of the candidates: it either cancels the background task or schedules
it at the target of another slot, which is Running and becomes `next_alarm_slot_idx`. -/
theorem confirm_freezes_remaining (host : movement_host) (settings : movement_settings_t)
    (state : countdown_state_t) (sl : countdown_slot_state_t) (subsecond : Nat)
    (hreach : reachable_by_events state)
    (hv : slot_read state.slots state.current_slot_idx = some sl)
    (hm : sl.mode = cd_running) :
    (sl.hours, sl.minutes, sl.seconds) = remaining_fields sl.target_ts state.now_ts ∧
      (state.now_ts ≤ sl.target_ts → sl.target_ts - state.now_ts < 115200 →
        sl.hours = (sl.target_ts - state.now_ts) / 3600 ∧
          sl.minutes = (sl.target_ts - state.now_ts) / 60 % 60 ∧
          sl.seconds = (sl.target_ts - state.now_ts) % 60) ∧
      ∃ state' wake,
        countdown_face_loop host { event_type := EVENT_ALARM_BUTTON_UP, subsecond := subsecond }
            settings state =
          some (state',
            wake ++ [watch_clear_indicator_bell] ++ button_beep settings ++
              [watch_clear_indicator_bell,
                watch_display_string
                  (sprintf_cd (state.current_slot_idx + 1) sl.hours sl.minutes sl.seconds) 0]) ∧
        state'.current_slot_idx = state.current_slot_idx ∧ state'.now_ts = state.now_ts ∧
        slot_read state'.slots state'.current_slot_idx = some { sl with mode := cd_paused } ∧
        (∀ j : Fin COUNTDOWN_SLOTS, j.val ≠ state.current_slot_idx →
          state'.slots j = state.slots j) ∧
        ((wake = [movement_cancel_background_task_for_face state.watch_face_idx] ∧
            state'.next_alarm_slot_idx = state.next_alarm_slot_idx) ∨
          ∃ k : Fin COUNTDOWN_SLOTS,
            k.val ≠ state.current_slot_idx ∧ (state.slots k).mode = cd_running ∧
            wake = [movement_schedule_background_task_for_face state.watch_face_idx
              (host.watch_utility_date_time_from_unix_time (state.slots k).target_ts
                (get_tz_offset host settings))] ∧
            state'.next_alarm_slot_idx = k.val) := by
  obtain ⟨hlt, hsl⟩ := slot_read_some_iff.mp hv
  have hdrawn := reachable_viewed_running_is_drawn hreach sl hv hm
  refine ⟨hdrawn, fun hle hd => ?_, ?_⟩
  · rw [remaining_fields_of_le hle hd] at hdrawn
    simp only [Prod.mk.injEq] at hdrawn
    exact hdrawn
  · have hp := pause_of_read host settings hv
    have hframe : ∀ (n : Nat) (j : Fin COUNTDOWN_SLOTS), j.val ≠ state.current_slot_idx →
        Function.update state.slots ⟨state.current_slot_idx, (slot_read_some_iff.mp hv).1⟩
          { sl with mode := cd_paused } j = state.slots j := by
      intro n j hj
      exact Function.update_noteq (fun h => hj (congrArg Fin.val h)) _ _
    have hdraw : ∀ n : Nat, draw { state with
          next_alarm_slot_idx := n
          slots := Function.update state.slots ⟨state.current_slot_idx, (slot_read_some_iff.mp hv).1⟩
            { sl with mode := cd_paused } } subsecond =
        some ({ state with
          next_alarm_slot_idx := n
          slots := Function.update state.slots ⟨state.current_slot_idx, (slot_read_some_iff.mp hv).1⟩
            { sl with mode := cd_paused } },
          [watch_clear_indicator_bell,
            watch_display_string
              (sprintf_cd (state.current_slot_idx + 1) sl.hours sl.minutes sl.seconds) 0]) :=
      fun n => @draw_of_reset_or_paused { state with
          next_alarm_slot_idx := n
          slots := Function.update state.slots ⟨state.current_slot_idx, (slot_read_some_iff.mp hv).1⟩
            { sl with mode := cd_paused } } _ (slot_read_update_same _ hlt _) (Or.inr rfl)
        subsecond
    rcases update_next_alarm_cases host settings { state with
        slots := Function.update state.slots ⟨state.current_slot_idx, (slot_read_some_iff.mp hv).1⟩
          { sl with mode := cd_paused } } with ⟨-, heq⟩ | ⟨k, hk, heq⟩
    · rw [heq] at hp
      refine ⟨{ state with
          slots := Function.update state.slots
            ⟨state.current_slot_idx, (slot_read_some_iff.mp hv).1⟩
            { sl with mode := cd_paused } },
        [movement_cancel_background_task_for_face state.watch_face_idx], ?_, rfl, rfl,
        slot_read_update_same _ hlt _, hframe 0, Or.inl ⟨rfl, rfl⟩⟩
      have hd0 := hdraw state.next_alarm_slot_idx
      simp only [countdown_face_loop, hv, hm, hp, and_then]
      simp only [hd0]
    · rw [heq] at hp
      have hki : k.val ≠ state.current_slot_idx := by
        intro hc
        have hk' : k = ⟨state.current_slot_idx, (slot_read_some_iff.mp hv).1⟩ := Fin.ext hc
        have := hk.2.1
        rw [hk'] at this
        simp at this
      have hks : Function.update state.slots ⟨state.current_slot_idx, (slot_read_some_iff.mp hv).1⟩
          { sl with mode := cd_paused } k = state.slots k := hframe 0 k hki
      refine ⟨{ state with
          next_alarm_slot_idx := k.val
          slots := Function.update state.slots
            ⟨state.current_slot_idx, (slot_read_some_iff.mp hv).1⟩
            { sl with mode := cd_paused } },
        [movement_schedule_background_task_for_face state.watch_face_idx
          (host.watch_utility_date_time_from_unix_time (state.slots k).target_ts
            (get_tz_offset host settings))], ?_, rfl, rfl,
        slot_read_update_same _ hlt _, hframe 0, Or.inr ⟨k, hki, ?_, rfl, rfl⟩⟩
      · have hd0 := hdraw k.val
        dsimp only at hp
        rw [hks] at hp
        simp only [countdown_face_loop, hv, hm, hp, and_then]
        simp only [hd0]
      · rw [← hks]; exact hk.2.1

/-- C16, instance: from the state after setup, slot 0 is set to one second and started
at 1000; it is then paused. -/
theorem confirm_freezes_remaining_witness :
    ∃ state calls state' calls',
      countdown_face_loop_seq demo_settings
          (demo_events (demo_host 1000 false) demo_set_one_second_and_start) (setup_state 0) =
        some (state, calls) ∧
      countdown_face_loop (demo_host 1000 false)
          { event_type := EVENT_ALARM_BUTTON_UP, subsecond := 0 } demo_settings state =
        some (state', calls') ∧
      slot_read state'.slots state'.current_slot_idx =
        some (demo_slot cd_paused 1001 0 0 1 0 0 1) := by
  have hsome : (countdown_face_loop_seq demo_settings
      (demo_events (demo_host 1000 false) demo_set_one_second_and_start) (setup_state 0)).map
      (fun r => slot_read r.1.slots r.1.current_slot_idx) =
      some (some (demo_slot cd_running 1001 0 0 1 0 0 1)) := by decide
  rcases hseq : countdown_face_loop_seq demo_settings
      (demo_events (demo_host 1000 false) demo_set_one_second_and_start) (setup_state 0) with
    _ | ⟨state, calls⟩
  · rw [hseq] at hsome
    exact absurd hsome (by simp)
  · rw [hseq] at hsome
    have hv : slot_read state.slots state.current_slot_idx =
        some (demo_slot cd_running 1001 0 0 1 0 0 1) := by simpa using hsome
    have hreach : reachable_by_events state :=
      reachable_by_events_seq demo_settings _ _ _ _
        (reachable_by_events.setup (countdown_face_setup_none 0)) hseq
    obtain ⟨-, -, state', wake, h, -, -, hp, -⟩ :=
      confirm_freezes_remaining (demo_host 1000 false) demo_settings state
        (demo_slot cd_running 1001 0 0 1 0 0 1) 0 hreach hv rfl
    exact ⟨state, calls, state', _, rfl, h, hp⟩

end Countdown
